import Mathlib

/-!
# DalbaragiEngine: swapchain negotiation and swapchain manager

A shallow embedding of `lib/vulkan/d_swapchain.cpp`.  Machine integers are
natural numbers; 32-bit arithmetic is reduced modulo `2 ^ 32` where the source
computes in `uint32_t`.  Vulkan enumerators carry the numeric values of
`vulkan_core.h`.
-/

namespace Dal

/-! ## Vulkan constants -/

def UINT32_MAX : Nat := 4294967295

def VK_NULL_HANDLE : Nat := 0

def VK_FORMAT_R8G8B8A8_UNORM : Nat := 37
def VK_FORMAT_B8G8R8A8_SRGB : Nat := 50

def VK_COLOR_SPACE_SRGB_NONLINEAR_KHR : Nat := 0

def VK_PRESENT_MODE_IMMEDIATE_KHR : Nat := 0
def VK_PRESENT_MODE_MAILBOX_KHR : Nat := 1
def VK_PRESENT_MODE_FIFO_KHR : Nat := 2

def VK_SURFACE_TRANSFORM_IDENTITY_BIT_KHR : Nat := 0x00000001
def VK_SURFACE_TRANSFORM_ROTATE_90_BIT_KHR : Nat := 0x00000002
def VK_SURFACE_TRANSFORM_ROTATE_180_BIT_KHR : Nat := 0x00000004
def VK_SURFACE_TRANSFORM_ROTATE_270_BIT_KHR : Nat := 0x00000008
def VK_SURFACE_TRANSFORM_HORIZONTAL_MIRROR_BIT_KHR : Nat := 0x00000010
def VK_SURFACE_TRANSFORM_HORIZONTAL_MIRROR_ROTATE_90_BIT_KHR : Nat := 0x00000020
def VK_SURFACE_TRANSFORM_HORIZONTAL_MIRROR_ROTATE_180_BIT_KHR : Nat := 0x00000040
def VK_SURFACE_TRANSFORM_HORIZONTAL_MIRROR_ROTATE_270_BIT_KHR : Nat := 0x00000080
def VK_SURFACE_TRANSFORM_INHERIT_BIT_KHR : Nat := 0x00000100

def VK_SUCCESS : Int := 0
def VK_SUBOPTIMAL_KHR : Int := 1000001003
def VK_ERROR_OUT_OF_DATE_KHR : Int := -1000001004

/-! ## Vulkan records -/

structure VkSurfaceFormatKHR where
  format : Nat
  colorSpace : Nat
  deriving DecidableEq, Repr

structure VkExtent2D where
  width : Nat
  height : Nat
  deriving DecidableEq, Repr

structure VkSurfaceCapabilitiesKHR where
  minImageCount : Nat
  maxImageCount : Nat
  currentExtent : VkExtent2D
  minImageExtent : VkExtent2D
  maxImageExtent : VkExtent2D
  currentTransform : Nat
  deriving DecidableEq, Repr

/-- The record `dal::SwapChainSupportDetails`: what a surface reports. -/
structure SwapChainSupportDetails where
  m_capabilities : VkSurfaceCapabilitiesKHR
  m_formats : List VkSurfaceFormatKHR
  m_present_modes : List Nat
  deriving DecidableEq, Repr

/-! ## The negotiation helpers of the anonymous namespace -/

/-- The template `clamp`: `std::max(minv, std::min(maxv, v))`. -/
def clamp (v minv maxv : Nat) : Nat :=
  max minv (min maxv v)

/-- The test of the loop body of `choose_surface_format`. -/
def is_preferred_format (f : VkSurfaceFormatKHR) : Bool :=
  f.format == VK_FORMAT_B8G8R8A8_SRGB && f.colorSpace == VK_COLOR_SPACE_SRGB_NONLINEAR_KHR

/-- The function `choose_surface_format`: the first listed entry that passes the
test, else element 0.  Indexing an empty vector has no defined result, which is
`none` here. -/
def choose_surface_format (available_formats : List VkSurfaceFormatKHR) :
    Option VkSurfaceFormatKHR :=
  match available_formats.find? is_preferred_format with
  | some format => some format
  | none => available_formats[0]?

inductive PresentMode where
  | fifo
  | mailbox
  deriving DecidableEq, Repr

/-- The function `choose_present_mode`: one pass over the supported modes. -/
def choose_present_mode : List Nat → PresentMode → Nat
  | [], _ => VK_PRESENT_MODE_FIFO_KHR
  | present_mode :: rest, preferred_mode =>
    if PresentMode.fifo = preferred_mode ∧ VK_PRESENT_MODE_FIFO_KHR = present_mode then
      VK_PRESENT_MODE_FIFO_KHR
    else if PresentMode.mailbox = preferred_mode ∧ VK_PRESENT_MODE_MAILBOX_KHR = present_mode then
      VK_PRESENT_MODE_MAILBOX_KHR
    else
      choose_present_mode rest preferred_mode

/-- The function `choose_extent`. -/
def choose_extent (capabilities : VkSurfaceCapabilitiesKHR) (w h : Nat) : VkExtent2D :=
  if capabilities.currentExtent.width ≠ UINT32_MAX then
    capabilities.currentExtent
  else
    { width := clamp w capabilities.minImageExtent.width capabilities.maxImageExtent.width
      height := clamp h capabilities.minImageExtent.height capabilities.maxImageExtent.height }

/-- The function `choose_image_count`; `image_count` is a `uint32_t`, so the
increment wraps modulo `2 ^ 32`. -/
def choose_image_count (swapchain_support : SwapChainSupportDetails) : Nat :=
  let image_count := (swapchain_support.m_capabilities.minImageCount + 1) % 2 ^ 32
  if swapchain_support.m_capabilities.maxImageCount > 0 ∧
      image_count > swapchain_support.m_capabilities.maxImageCount then
    swapchain_support.m_capabilities.maxImageCount
  else
    image_count

/-- The function `get_identity_screen_resoultion` (spelling of the source). -/
def get_identity_screen_resoultion (capabilities : VkSurfaceCapabilitiesKHR) : VkExtent2D :=
  let width := capabilities.currentExtent.width
  let height := capabilities.currentExtent.height
  if capabilities.currentTransform &&& VK_SURFACE_TRANSFORM_ROTATE_90_BIT_KHR ≠ 0 ∨
      capabilities.currentTransform &&& VK_SURFACE_TRANSFORM_ROTATE_270_BIT_KHR ≠ 0 then
    { width := height, height := width }
  else
    { width := width, height := height }

/-- The Vulkan mode a preferred mode stands for. -/
def PresentMode.toVk : PresentMode → Nat
  | .fifo => VK_PRESENT_MODE_FIFO_KHR
  | .mailbox => VK_PRESENT_MODE_MAILBOX_KHR

/-- The preferred surface format pair. -/
def preferred_format : VkSurfaceFormatKHR :=
  { format := VK_FORMAT_B8G8R8A8_SRGB, colorSpace := VK_COLOR_SPACE_SRGB_NONLINEAR_KHR }

/-! ## The logical device

The Vulkan entry points, the wrappers `Semaphore`, `Fence` and `ImageView`, and
the header `d_swapchain.h` are not part of the translated sources.  The device
is a supply of fresh non-null handles together with the record of the create
and destroy calls it has received. -/

structure VkSwapchainCreateInfoKHR where
  surface : Nat
  minImageCount : Nat
  imageFormat : Nat
  imageColorSpace : Nat
  imageExtent : VkExtent2D
  imageArrayLayers : Nat
  concurrent_sharing : Bool
  queueFamilyIndices : List Nat
  preTransform : Nat
  presentMode : Nat
  clipped : Bool
  oldSwapchain : Nat
  deriving DecidableEq, Repr

inductive DeviceCall where
  | createSemaphore (handle : Nat)
  | destroySemaphore (handle : Nat)
  | createFence (handle : Nat)
  | destroyFence (handle : Nat)
  | createSwapchain (info : VkSwapchainCreateInfoKHR) (handle : Nat)
  | destroySwapchain (handle : Nat)
  | createImageView (image format handle : Nat)
  | destroyImageView (handle : Nat)
  deriving DecidableEq, Repr

structure VkDevice where
  last_handle : Nat
  calls : List DeviceCall
  deriving DecidableEq, Repr

/-- A fresh handle, never `VK_NULL_HANDLE`, and the device after `call` was
recorded for it. -/
def VkDevice.create (dev : VkDevice) (call : Nat → DeviceCall) : Nat × VkDevice :=
  (dev.last_handle + 1,
    { last_handle := dev.last_handle + 1, calls := dev.calls ++ [call (dev.last_handle + 1)] })

def VkDevice.record (dev : VkDevice) (call : DeviceCall) : VkDevice :=
  { dev with calls := dev.calls ++ [call] }

/-- Modelled from the spec: the class `Semaphore` (absent header), an opaque
handle with create and destroy operations. -/
structure Semaphore where
  m_handle : Nat := VK_NULL_HANDLE
  deriving DecidableEq, Repr

def Semaphore.init (_self : Semaphore) (dev : VkDevice) : Semaphore × VkDevice :=
  let (h, dev1) := dev.create DeviceCall.createSemaphore
  ({ m_handle := h }, dev1)

def Semaphore.destory (self : Semaphore) (dev : VkDevice) : Semaphore × VkDevice :=
  if self.m_handle ≠ VK_NULL_HANDLE then
    ({ m_handle := VK_NULL_HANDLE }, dev.record (DeviceCall.destroySemaphore self.m_handle))
  else
    (self, dev)

/-- Modelled from the spec: the class `Fence` (absent header), an opaque handle
with create and destroy operations. -/
structure Fence where
  m_handle : Nat := VK_NULL_HANDLE
  deriving DecidableEq, Repr

def Fence.init (_self : Fence) (dev : VkDevice) : Fence × VkDevice :=
  let (h, dev1) := dev.create DeviceCall.createFence
  ({ m_handle := h }, dev1)

def Fence.destory (self : Fence) (dev : VkDevice) : Fence × VkDevice :=
  if self.m_handle ≠ VK_NULL_HANDLE then
    ({ m_handle := VK_NULL_HANDLE }, dev.record (DeviceCall.destroyFence self.m_handle))
  else
    (self, dev)

/-- Modelled from the spec: the class `ImageView` (absent header), an owned
image-view handle. -/
structure ImageView where
  m_view : Nat := VK_NULL_HANDLE
  deriving DecidableEq, Repr

/-- The call `ImageView::init`; `ok` is what view creation answers, and the
boolean of the result is what the call returns. -/
def ImageView.init (self : ImageView) (ok : Bool) (image format : Nat) (dev : VkDevice) :
    Bool × ImageView × VkDevice :=
  if ok then
    let (h, dev1) := dev.create (DeviceCall.createImageView image format)
    (true, { m_view := h }, dev1)
  else
    (false, self, dev)

def ImageView.destroy (self : ImageView) (dev : VkDevice) : ImageView × VkDevice :=
  if self.m_view ≠ VK_NULL_HANDLE then
    ({ m_view := VK_NULL_HANDLE }, dev.record (DeviceCall.destroyImageView self.m_view))
  else
    (self, dev)

/-! ## Containers -/

/-- The call `std::vector::resize(n, value)`: keeps the first `n` elements and
appends copies of `value` up to length `n`. -/
def vector_resize {α : Type} (xs : List α) (n : Nat) (value : α) : List α :=
  xs.take n ++ List.replicate (n - xs.length) value

/-- A range-for loop `for (auto& x : xs) f(x, device)`. -/
def for_each {α : Type} (f : α → VkDevice → α × VkDevice) :
    List α → VkDevice → List α × VkDevice
  | [], dev => ([], dev)
  | x :: xs, dev =>
    let r := f x dev
    let rs := for_each f xs r.2
    (r.1 :: rs.1, rs.2)

/-! ## SwapchainSyncManager -/

/-- The members of `SwapchainSyncManager`.  An entry of `m_img_in_flight_fences`
is a nullable pointer to one of the frame-in-flight fences, held here as the
position of that fence. -/
structure SwapchainSyncManager where
  m_img_available : List Semaphore := []
  m_render_finished : List Semaphore := []
  m_frame_in_flight_fences : List Fence := []
  m_img_in_flight_fences : List (Option Nat) := []
  deriving DecidableEq, Repr

/-- The method `SwapchainSyncManager::destroy`. -/
def SwapchainSyncManager.destroy (self : SwapchainSyncManager) (logi_device : VkDevice) :
    SwapchainSyncManager × VkDevice :=
  let r1 := for_each Semaphore.destory self.m_img_available logi_device
  let r2 := for_each Semaphore.destory self.m_render_finished r1.2
  let r3 := for_each Fence.destory self.m_frame_in_flight_fences r2.2
  ({ m_img_available := [], m_render_finished := [], m_frame_in_flight_fences := [],
     m_img_in_flight_fences := [] }, r3.2)

/-- The method `SwapchainSyncManager::init`.  The constant
`MAX_FRAMES_IN_FLIGHT` is declared in an absent header and is a parameter. -/
def SwapchainSyncManager.init (MAX_FRAMES_IN_FLIGHT : Nat) (self : SwapchainSyncManager)
    (swapchain_count : Nat) (logi_device : VkDevice) : SwapchainSyncManager × VkDevice :=
  let r0 := self.destroy logi_device
  let r1 := for_each Semaphore.init
    (vector_resize r0.1.m_img_available MAX_FRAMES_IN_FLIGHT {}) r0.2
  let r2 := for_each Semaphore.init
    (vector_resize r0.1.m_render_finished MAX_FRAMES_IN_FLIGHT {}) r1.2
  let r3 := for_each Fence.init
    (vector_resize r0.1.m_frame_in_flight_fences MAX_FRAMES_IN_FLIGHT {}) r2.2
  ({ m_img_available := r1.1, m_render_finished := r2.1, m_frame_in_flight_fences := r3.1,
     m_img_in_flight_fences := vector_resize r0.1.m_img_in_flight_fences swapchain_count none },
   r3.2)

/-! ## SwapchainManager -/

structure QueueFamilyIndices where
  m_graphics_family : Nat
  m_present_family : Nat
  deriving DecidableEq, Repr

def QueueFamilyIndices.graphics_family (self : QueueFamilyIndices) : Nat :=
  self.m_graphics_family

def QueueFamilyIndices.present_family (self : QueueFamilyIndices) : Nat :=
  self.m_present_family

/-- What the surface and the device answer during one call of
`SwapchainManager::init`: the probed support details, the result code of
`vkCreateSwapchainKHR`, the image count and image handles reported by
`vkGetSwapchainImagesKHR`, and the outcome of creating the view of the image at
each position. -/
structure DriverReply where
  support : SwapChainSupportDetails
  create_result : Int
  image_count : Nat
  image_handle : Nat → Nat
  view_ok : Nat → Bool

/-- The members of `SwapchainManager` that `d_swapchain.cpp` assigns.  The
matrix `m_pre_rotate_mat` is a rotation about the z axis and is held as its
angle in degrees; `m_perspective_ratio` is held as an exact rational. -/
structure SwapchainManager where
  m_sync_man : SwapchainSyncManager := {}
  m_swapChain : Nat := VK_NULL_HANDLE
  m_images : List Nat := []
  m_views : List ImageView := []
  m_image_format : Nat := 0
  m_identity_extent : VkExtent2D := { width := 0, height := 0 }
  m_transform : Nat := 0
  m_pre_rotate_deg : Nat := 0
  m_perspective_ratio : ℚ := 0

/-- Modelled from the spec: the accessor `extent()` is declared in the absent
header `d_swapchain.h`; the only extent the manager stores is
`m_identity_extent`, the identity width and height used for image creation,
which is what it returns. -/
def SwapchainManager.extent (self : SwapchainManager) : VkExtent2D :=
  self.m_identity_extent

/-- Modelled from the spec: the accessor `width()` of the absent header
`d_swapchain.h`, the width of the stored extent. -/
def SwapchainManager.width (self : SwapchainManager) : Nat :=
  self.extent.width

/-- Modelled from the spec: the accessor `height()` of the absent header
`d_swapchain.h`, the height of the stored extent. -/
def SwapchainManager.height (self : SwapchainManager) : Nat :=
  self.extent.height

/-- Modelled from the spec: the accessor `views()` of the absent header
`d_swapchain.h`, the stored image views. -/
def SwapchainManager.views (self : SwapchainManager) : List ImageView :=
  self.m_views

/-- The method `SwapchainManager::size`; `none` is the failed assertion.  The
result is a `uint32_t`. -/
def SwapchainManager.size (self : SwapchainManager) : Option Nat :=
  if self.views.length = self.m_images.length then
    some (self.views.length % 2 ^ 32)
  else
    none

/-- The method `SwapchainManager::destroy_except_swapchain`. -/
def SwapchainManager.destroy_except_swapchain (self : SwapchainManager)
    (logi_device : VkDevice) : SwapchainManager × VkDevice :=
  let r1 := self.m_sync_man.destroy logi_device
  let r2 := for_each ImageView.destroy self.m_views r1.2
  ({ self with m_sync_man := r1.1, m_images := [], m_views := [] }, r2.2)

/-- The method `SwapchainManager::destroy`. -/
def SwapchainManager.destroy (self : SwapchainManager) (logi_device : VkDevice) :
    SwapchainManager × VkDevice :=
  let r := self.destroy_except_swapchain logi_device
  if VK_NULL_HANDLE ≠ r.1.m_swapChain then
    ({ r.1 with m_swapChain := VK_NULL_HANDLE },
      r.2.record (DeviceCall.destroySwapchain r.1.m_swapChain))
  else
    r

/-- The loop of `init` over `i = 0 .. m_images.size() - 1` that initialises
`m_views[i]` from `m_images[i]`; `none` is the failed assertion on the result
of `ImageView::init`. -/
def init_views (reply : DriverReply) (format : Nat) :
    Nat → List Nat → List ImageView → VkDevice → Option (List ImageView × VkDevice)
  | _, [], views, dev => some (views, dev)
  | _, _ :: _, [], _ => none
  | i, image :: images, view :: views, dev =>
    match view.init (reply.view_ok i) image format dev with
    | (false, _, _) => none
    | (true, view1, dev1) =>
      match init_views reply format (i + 1) images views dev1 with
      | none => none
      | some (views1, dev2) => some (view1 :: views1, dev2)

/-- The block "Transform values" of `init`: the switch on `m_transform` that
assigns the pre-rotation and the perspective ratio; `none` is `dalAbort`.  The
ratio is the exact rational quotient of the two `float` operands.  At a zero
width or height the source's `float` division gives inf or NaN, which the
rationals do not hold; the value here is then not the source's, and the
theorem about the stored ratio assumes a width and a height above 0. -/
def SwapchainManager.set_transform_values (self : SwapchainManager) : Option SwapchainManager :=
  if self.m_transform = VK_SURFACE_TRANSFORM_IDENTITY_BIT_KHR then
    some { self with
      m_pre_rotate_deg := 0
      m_perspective_ratio := (self.width : ℚ) / (self.height : ℚ) }
  else if self.m_transform = VK_SURFACE_TRANSFORM_ROTATE_90_BIT_KHR then
    some { self with
      m_pre_rotate_deg := 90
      m_perspective_ratio := (self.height : ℚ) / (self.width : ℚ) }
  else if self.m_transform = VK_SURFACE_TRANSFORM_ROTATE_180_BIT_KHR then
    some { self with
      m_pre_rotate_deg := 180
      m_perspective_ratio := (self.width : ℚ) / (self.height : ℚ) }
  else if self.m_transform = VK_SURFACE_TRANSFORM_ROTATE_270_BIT_KHR then
    some { self with
      m_pre_rotate_deg := 270
      m_perspective_ratio := (self.height : ℚ) / (self.width : ℚ) }
  else
    none

/-- The method `SwapchainManager::init` from its first statement up to and
including the block "Transform values", that is, everything before the call
`m_sync_man.init(this->size(), logi_device)`.  The parameters `desired_width`
and `desired_height` are unused by the source, whose call of `choose_extent` is
commented out.  `none` stands for an abort: a failed `dalAssert`, `dalAbort`, or
the undefined `available_formats[0]` of an empty format list. -/
def SwapchainManager.init_swapchain (self : SwapchainManager)
    (_desired_width _desired_height : Nat) (indices : QueueFamilyIndices) (surface : Nat)
    (reply : DriverReply) (logi_device : VkDevice) : Option (SwapchainManager × VkDevice) :=
  let r0 := self.destroy_except_swapchain logi_device
  let swapchain_support := reply.support
  match choose_surface_format swapchain_support.m_formats with
  | none => none
  | some surface_format =>
    let present_mode := choose_present_mode swapchain_support.m_present_modes PresentMode.fifo
    let s1 : SwapchainManager := { r0.1 with
      m_image_format := surface_format.format
      m_identity_extent := get_identity_screen_resoultion swapchain_support.m_capabilities
      m_transform := swapchain_support.m_capabilities.currentTransform }
    let needed_images_count := choose_image_count swapchain_support
    -- Create swap chain
    let create_info_swapchain : VkSwapchainCreateInfoKHR :=
      { surface := surface
        minImageCount := needed_images_count
        imageFormat := surface_format.format
        imageColorSpace := surface_format.colorSpace
        imageExtent := s1.m_identity_extent
        imageArrayLayers := 1
        concurrent_sharing := decide (indices.graphics_family ≠ indices.present_family)
        queueFamilyIndices :=
          if indices.graphics_family ≠ indices.present_family then
            [indices.graphics_family, indices.present_family]
          else []
        preTransform := swapchain_support.m_capabilities.currentTransform
        presentMode := present_mode
        clipped := true
        oldSwapchain := s1.m_swapChain }
    if reply.create_result ≠ VK_SUCCESS then none
    else
      let c := r0.2.create (DeviceCall.createSwapchain create_info_swapchain)
      let s2 : SwapchainManager := { s1 with m_swapChain := c.1 }
      -- Create images
      let image_count := reply.image_count % 2 ^ 32
      let resized := vector_resize s2.m_images image_count VK_NULL_HANDLE
      let s3 : SwapchainManager := { s2 with
        m_images := (List.range resized.length).map reply.image_handle }
      -- Image Views
      match init_views reply s3.m_image_format 0 s3.m_images
          (vector_resize s3.m_views s3.m_images.length {}) c.2 with
      | none => none
      | some (views, dev3) =>
        let s4 : SwapchainManager := { s3 with m_views := views }
        -- Transform values
        match s4.set_transform_values with
        | none => none
        | some s5 => some (s5, dev3)

/-- The method `SwapchainManager::init`: `init_swapchain`, then
`m_sync_man.init(this->size(), logi_device)`; `none` stands for an abort.  The
closing "Report result" block only writes a log line and has no effect on the
state. -/
def SwapchainManager.init (MAX_FRAMES_IN_FLIGHT : Nat) (self : SwapchainManager)
    (desired_width desired_height : Nat) (indices : QueueFamilyIndices) (surface : Nat)
    (reply : DriverReply) (logi_device : VkDevice) : Option (SwapchainManager × VkDevice) :=
  match self.init_swapchain desired_width desired_height indices surface reply logi_device with
  | none => none
  | some (s5, dev3) =>
    match s5.size with
    | none => none
    | some n =>
      let r := s5.m_sync_man.init MAX_FRAMES_IN_FLIGHT n dev3
      some ({ s5 with m_sync_man := r.1 }, r.2)

/-- The outcomes of `acquire_next_img_index`. -/
inductive ImgAcquireResult where
  | fail
  | out_of_date
  | suboptimal
  | success
  deriving DecidableEq, Repr

/-- The index type `SwapchainIndex` of an absent header: a wrapped integer. -/
structure SwapchainIndex where
  m_value : Nat
  deriving DecidableEq, Repr

/-- The method `SwapchainManager::acquire_next_img_index` after the call of
`vkAcquireNextImageKHR`: `result` is the code the driver returned and
`img_index` the content of the index variable it may have written.  The
sentinel `SwapchainIndex::max_value()` is declared in an absent header and is a
parameter. -/
def SwapchainManager.acquire_next_img_index (max_value : SwapchainIndex) (result : Int)
    (img_index : Nat) : ImgAcquireResult × SwapchainIndex :=
  if result = VK_ERROR_OUT_OF_DATE_KHR then
    (ImgAcquireResult.out_of_date, max_value)
  else if result = VK_SUBOPTIMAL_KHR then
    (ImgAcquireResult.suboptimal, { m_value := img_index })
  else if result = VK_SUCCESS then
    (ImgAcquireResult.success, { m_value := img_index })
  else
    (ImgAcquireResult.fail, max_value)

/-- A call made on a `SwapchainManager`. -/
inductive ManagerCall where
  | init (desired_width desired_height : Nat) (indices : QueueFamilyIndices) (surface : Nat)
      (reply : DriverReply)
  | destroy

/-- One call on the manager and its device; `none` when the call aborts. -/
def ManagerCall.apply (MAX_FRAMES_IN_FLIGHT : Nat) :
    ManagerCall → SwapchainManager × VkDevice → Option (SwapchainManager × VkDevice)
  | .init w h indices surface reply, st =>
    st.1.init MAX_FRAMES_IN_FLIGHT w h indices surface reply st.2
  | .destroy, st => some (st.1.destroy st.2)

/-- A sequence of calls, first to last. -/
def run_calls (MAX_FRAMES_IN_FLIGHT : Nat) :
    List ManagerCall → SwapchainManager × VkDevice → Option (SwapchainManager × VkDevice)
  | [], st => some st
  | call :: calls, st =>
    match call.apply MAX_FRAMES_IN_FLIGHT st with
    | none => none
    | some st1 => run_calls MAX_FRAMES_IN_FLIGHT calls st1

/-- A freshly constructed manager: no swapchain, no images, no views. -/
def SwapchainManager.fresh : SwapchainManager := {}

/-- A surface pre-rotated by 90 degrees that reports the raw extent 1920 x 1080
and three images. -/
def reply_rotate_90 : DriverReply :=
  { support :=
      { m_capabilities := ⟨2, 3, ⟨1920, 1080⟩, ⟨64, 64⟩, ⟨4096, 4096⟩,
          VK_SURFACE_TRANSFORM_ROTATE_90_BIT_KHR⟩
        m_formats := [⟨VK_FORMAT_R8G8B8A8_UNORM, 0⟩, ⟨VK_FORMAT_B8G8R8A8_SRGB, 0⟩]
        m_present_modes := [VK_PRESENT_MODE_FIFO_KHR] }
    create_result := VK_SUCCESS
    image_count := 3
    image_handle := fun i => 100 + i
    view_ok := fun _ => true }

/-- An unrotated surface that reports the extent 800 x 600 and two images. -/
def reply_identity : DriverReply :=
  { support :=
      { m_capabilities := ⟨1, 2, ⟨800, 600⟩, ⟨64, 64⟩, ⟨4096, 4096⟩,
          VK_SURFACE_TRANSFORM_IDENTITY_BIT_KHR⟩
        m_formats := [⟨VK_FORMAT_B8G8R8A8_SRGB, 0⟩]
        m_present_modes := [VK_PRESENT_MODE_MAILBOX_KHR, VK_PRESENT_MODE_FIFO_KHR] }
    create_result := VK_SUCCESS
    image_count := 2
    image_handle := fun i => 200 + i
    view_ok := fun _ => true }

/-! ## SwapchainSpec -/

/-- Modelled from the spec: the type of the member `m_extent` of
`SwapchainSpec` is declared in the absent header `d_swapchain.h`; it is a
two-component vector with members `x` and `y` that holds the extent (width,
height) as unsigned integers. -/
structure ExtentVec where
  x : Nat
  y : Nat
  deriving DecidableEq, Repr

/-- The members of `SwapchainSpec` that `d_swapchain.cpp` reads and assigns. -/
structure SwapchainSpec where
  m_extent : ExtentVec := { x := 0, y := 0 }
  m_image_format : Nat := 0
  m_count : Nat := 0
  deriving DecidableEq, Repr

/-- The operator `SwapchainSpec::operator==`. -/
def SwapchainSpec.operator_eq (self other : SwapchainSpec) : Bool :=
  if self.m_extent ≠ other.m_extent then false
  else if self.m_image_format ≠ other.m_image_format then false
  else if self.m_count ≠ other.m_count then false
  else true

/-- The method `SwapchainSpec::set`, one assignment after the other. -/
def SwapchainSpec.set (self : SwapchainSpec) (count format : Nat) (extent : VkExtent2D) :
    SwapchainSpec :=
  let s1 : SwapchainSpec := { self with m_image_format := format }
  let s2 : SwapchainSpec := { s1 with m_count := count }
  let s3 : SwapchainSpec := { s2 with m_extent := { s2.m_extent with x := extent.width } }
  { s3 with m_extent := { s3.m_extent with y := extent.height } }

/-- Modelled from the spec: the accessor `format()` of the absent header
`d_swapchain.h`, the stored image format. -/
def SwapchainManager.format (self : SwapchainManager) : Nat :=
  self.m_image_format

/-- The method `SwapchainManager::make_spec`; `none` is the failed assertion of
`size()`. -/
def SwapchainManager.make_spec (self : SwapchainManager) : Option SwapchainSpec :=
  match self.size with
  | none => none
  | some n => some (SwapchainSpec.set {} n self.format self.extent)

/-- The method `SwapchainManager::is_format_srgb`; `none` is `dalAbort`. -/
def SwapchainManager.is_format_srgb (self : SwapchainManager) : Option Bool :=
  if self.format = VK_FORMAT_R8G8B8A8_UNORM then some false
  else if self.format = VK_FORMAT_B8G8R8A8_SRGB then some true
  else none

/-! ## Reading the record of device calls -/

/-- The handles of the swapchains the device was asked to create, in order. -/
def swapchains_created : List DeviceCall → List Nat
  | [] => []
  | DeviceCall.createSwapchain _ handle :: calls => handle :: swapchains_created calls
  | _ :: calls => swapchains_created calls

/-- The handles of the swapchains the device was asked to destroy, in order. -/
def swapchains_destroyed : List DeviceCall → List Nat
  | [] => []
  | DeviceCall.destroySwapchain handle :: calls => handle :: swapchains_destroyed calls
  | _ :: calls => swapchains_destroyed calls

/-- The `oldSwapchain` hints of the create calls, in order. -/
def old_swapchain_hints : List DeviceCall → List Nat
  | [] => []
  | DeviceCall.createSwapchain info _ :: calls => info.oldSwapchain :: old_swapchain_hints calls
  | _ :: calls => old_swapchain_hints calls

def VK_FORMAT_B8G8R8A8_UNORM : Nat := 44

/-- A surface whose only supported format is `VK_FORMAT_B8G8R8A8_UNORM`. -/
def reply_bgra_unorm : DriverReply :=
  { support :=
      { m_capabilities := ⟨2, 3, ⟨800, 600⟩, ⟨64, 64⟩, ⟨4096, 4096⟩,
          VK_SURFACE_TRANSFORM_IDENTITY_BIT_KHR⟩
        m_formats := [⟨VK_FORMAT_B8G8R8A8_UNORM, VK_COLOR_SPACE_SRGB_NONLINEAR_KHR⟩]
        m_present_modes := [VK_PRESENT_MODE_FIFO_KHR] }
    create_result := VK_SUCCESS
    image_count := 3
    image_handle := fun i => 300 + i
    view_ok := fun _ => true }

/-- A surface that reports the flexible-extent sentinel, with bounds
(64, 64) and (1920, 1080), and no rotation. -/
def reply_flexible : DriverReply :=
  { support :=
      { m_capabilities := ⟨2, 3, ⟨4294967295, 4294967295⟩, ⟨64, 64⟩, ⟨1920, 1080⟩,
          VK_SURFACE_TRANSFORM_IDENTITY_BIT_KHR⟩
        m_formats := [⟨VK_FORMAT_B8G8R8A8_SRGB, VK_COLOR_SPACE_SRGB_NONLINEAR_KHR⟩]
        m_present_modes := [VK_PRESENT_MODE_FIFO_KHR] }
    create_result := VK_SUCCESS
    image_count := 3
    image_handle := fun i => 400 + i
    view_ok := fun _ => true }

/-! ## GLM vectors

The GLM library is not part of the translated sources.  Its vectors are taken
over the real numbers, as the statements about lights and planes are; `float`
rounding is not represented. -/

/-- The type `glm::vec3`. -/
structure Vec3 where
  x : ℝ
  y : ℝ
  z : ℝ

/-- The function `glm::dot` on `vec3`. -/
def glm_dot (a b : Vec3) : ℝ :=
  a.x * b.x + a.y * b.y + a.z * b.z

/-- The product `v * s` of a `vec3` and a scalar. -/
def Vec3.scale (v : Vec3) (s : ℝ) : Vec3 :=
  { x := v.x * s, y := v.y * s, z := v.z * s }

/-- The function `glm::length`. -/
noncomputable def glm_length (v : Vec3) : ℝ :=
  Real.sqrt (glm_dot v v)

/-- The function `glm::inversesqrt`. -/
noncomputable def glm_inversesqrt (a : ℝ) : ℝ :=
  1 / Real.sqrt a

/-- The function `glm::normalize`, which GLM computes as
`v * inversesqrt(dot(v, v))`.  At the zero vector the quotient by a zero length
has no real value (the source's floats give NaN); the definition takes the
value of Lean's total division there, which is the zero vector. -/
noncomputable def glm_normalize (v : Vec3) : Vec3 :=
  v.scale (glm_inversesqrt (glm_dot v v))

/-! ## Lights (`d_render_cpnt.h`) -/

/-- The class `DLight` with the members of its base `ILight`. -/
structure DLight where
  m_pos : Vec3 := { x := 0, y := 0, z := 0 }
  m_color : Vec3 := { x := 0, y := 0, z := 0 }
  m_direc_to_light : Vec3 := { x := 0, y := 0, z := 0 }

def DLight.to_light_direc (self : DLight) : Vec3 :=
  self.m_direc_to_light

/-- The overload `set_direc_to_light(const glm::vec3&)`. -/
noncomputable def DLight.set_direc_to_light (self : DLight) (v : Vec3) : DLight :=
  { self with m_direc_to_light := glm_normalize v }

/-- The overload `set_direc_to_light(float, float, float)`. -/
noncomputable def DLight.set_direc_to_light_xyz (self : DLight) (x y z : ℝ) : DLight :=
  self.set_direc_to_light { x := x, y := y, z := z }

/-- The class `PLight` with the members of its base `ILight`. -/
structure PLight where
  m_pos : Vec3 := { x := 0, y := 0, z := 0 }
  m_color : Vec3 := { x := 0, y := 0, z := 0 }
  m_max_dist : ℝ := 20

/-! ## Scene (`d_scene.cpp`)

The header `d_scene.h`, the component types and the EnTT registry are not part
of the translated sources. -/

/-- Modelled from the spec: the component `cpnt::Model` (absent header), a
reference to a shared static mesh, held as its handle. -/
structure cpnt.Model where
  m_model : Nat
  deriving DecidableEq, Repr

/-- Modelled from the spec: the component `cpnt::Actor` (absent header), the
list of actor transforms, held as handles. -/
structure cpnt.Actor where
  m_actors : List Nat
  deriving DecidableEq, Repr

/-- Modelled from the spec: the component `cpnt::ModelSkinned` (absent header),
a reference to a shared skinned mesh, held as its handle. -/
structure cpnt.ModelSkinned where
  m_model : Nat
  deriving DecidableEq, Repr

/-- Modelled from the spec: the component `cpnt::ActorAnimated` (absent
header), the list of animated actors, held as handles. -/
structure cpnt.ActorAnimated where
  m_actors : List Nat
  deriving DecidableEq, Repr

/-- Modelled from the spec: an entity of the registry, tagged with zero or more
of the four components. -/
structure Entity where
  model : Option cpnt.Model := none
  actor : Option cpnt.Actor := none
  model_skinned : Option cpnt.ModelSkinned := none
  actor_animated : Option cpnt.ActorAnimated := none
  deriving DecidableEq, Repr

/-- Modelled from the spec: an entry of `RenderList::m_static_models` (absent
header): the mesh reference and the actor list. -/
structure RenderPairStatic where
  m_model : Nat
  m_actors : List Nat
  deriving DecidableEq, Repr

/-- Modelled from the spec: an entry of `RenderList::m_skinned_models` (absent
header): the mesh reference and the actor list. -/
structure RenderPairSkinned where
  m_model : Nat
  m_actors : List Nat
  deriving DecidableEq, Repr

/-- Modelled from the spec: the record `RenderList` (absent header), with the
members `make_render_list` fills. -/
structure RenderList where
  m_static_models : List RenderPairStatic := []
  m_skinned_models : List RenderPairSkinned := []
  m_dlights : List DLight := []
  m_plights : List PLight := []
  m_ambient_color : Vec3 := { x := 0, y := 0, z := 0 }

/-- Modelled from the spec: the camera member of `Scene` (absent header), with
the two members the constructor assigns. -/
structure EulerCamera where
  m_pos : Vec3
  m_rotations : Vec3

/-- The members of `Scene`; the registry is the list of its entities in the
order a view visits them. -/
structure Scene where
  m_registry : List Entity
  m_euler_camera : EulerCamera

/-- Modelled from the spec: the EnTT call
`registry.view<cpnt::Model, cpnt::Actor>().each(f)`: `f` is called once, with
references to both components, for every entity that has both; what `f` leaves
in the components is written back to the entity. -/
def view_each_model_actor {σ : Type} (f : cpnt.Model → cpnt.Actor → σ → cpnt.Model × cpnt.Actor × σ) :
    List Entity → σ → List Entity × σ
  | [], out => ([], out)
  | e :: es, out =>
    match e.model, e.actor with
    | some model, some actor =>
      let r := f model actor out
      let rest := view_each_model_actor f es r.2.2
      ({ e with model := some r.1, actor := some r.2.1 } :: rest.1, rest.2)
    | _, _ =>
      let rest := view_each_model_actor f es out
      (e :: rest.1, rest.2)

/-- Modelled from the spec: the EnTT call
`registry.view<cpnt::ModelSkinned, cpnt::ActorAnimated>().each(f)`. -/
def view_each_skinned_animated {σ : Type}
    (f : cpnt.ModelSkinned → cpnt.ActorAnimated → σ →
      cpnt.ModelSkinned × cpnt.ActorAnimated × σ) :
    List Entity → σ → List Entity × σ
  | [], out => ([], out)
  | e :: es, out =>
    match e.model_skinned, e.actor_animated with
    | some model, some actor =>
      let r := f model actor out
      let rest := view_each_skinned_animated f es r.2.2
      ({ e with model_skinned := some r.1, actor_animated := some r.2.1 } :: rest.1, rest.2)
    | _, _ =>
      let rest := view_each_skinned_animated f es out
      (e :: rest.1, rest.2)

/-- The first lambda of `make_render_list`. -/
def push_static_model (model : cpnt.Model) (actor : cpnt.Actor) (output : RenderList) :
    cpnt.Model × cpnt.Actor × RenderList :=
  (model, actor, { output with
    m_static_models := output.m_static_models ++
      [{ m_model := model.m_model, m_actors := actor.m_actors }] })

/-- The second lambda of `make_render_list`. -/
def push_skinned_model (model : cpnt.ModelSkinned) (actor : cpnt.ActorAnimated)
    (output : RenderList) : cpnt.ModelSkinned × cpnt.ActorAnimated × RenderList :=
  (model, actor, { output with
    m_skinned_models := output.m_skinned_models ++
      [{ m_model := model.m_model, m_actors := actor.m_actors }] })

/-- The method `Scene::make_render_list`; it is not `const`, so the scene it
leaves is part of the result.  `cur_sec` is what `dal::get_cur_sec()` returns. -/
noncomputable def Scene.make_render_list (self : Scene) (cur_sec : ℝ) : RenderList × Scene :=
  let output : RenderList := {}
  let r1 := view_each_model_actor push_static_model self.m_registry output
  let r2 := view_each_skinned_animated push_skinned_model r1.1 r1.2
  let dlight : DLight :=
    { (({ m_pos := { x := 5, y := 0, z := 0 } } : DLight).set_direc_to_light_xyz 1 5 1) with
      m_color := { x := 1, y := 1, z := 1 } }
  let output3 : RenderList := { r2.2 with m_dlights := r2.2.m_dlights ++ [dlight] }
  let plight : PLight :=
    { m_pos := { x := Real.sin cur_sec * 3, y := 1, z := Real.cos cur_sec * 2 }
      m_color := { x := 0.5, y := 0.5, z := 0.5 } }
  let output4 : RenderList := { output3 with m_plights := output3.m_plights ++ [plight] }
  ({ output4 with m_ambient_color := { x := 0.01, y := 0.01, z := 0.01 } },
    { self with m_registry := r2.1 })

/-- The entry an entity contributes to the static-model list, if any. -/
def static_entry (e : Entity) : Option RenderPairStatic :=
  match e.model, e.actor with
  | some model, some actor => some { m_model := model.m_model, m_actors := actor.m_actors }
  | _, _ => none

/-- The entry an entity contributes to the skinned-model list, if any. -/
def skinned_entry (e : Entity) : Option RenderPairSkinned :=
  match e.model_skinned, e.actor_animated with
  | some model, some actor => some { m_model := model.m_model, m_actors := actor.m_actors }
  | _, _ => none

/-! ## Plane (`d_geometry.cpp`)

A `glm::mat4` is a real 4 x 4 matrix acting on column vectors; the GLM entry
`m[c][r]` is the entry of row `r` and column `c`. -/

/-- The type `glm::vec4`. -/
structure Vec4 where
  x : ℝ
  y : ℝ
  z : ℝ
  w : ℝ

/-- The function `glm::dot` on `vec4`. -/
def glm_dot4 (a b : Vec4) : ℝ :=
  a.x * b.x + a.y * b.y + a.z * b.z + a.w * b.w

/-- The function `glm::cross`. -/
def glm_cross (a b : Vec3) : Vec3 :=
  { x := a.y * b.z - b.y * a.z, y := a.z * b.x - b.z * a.x, z := a.x * b.y - b.x * a.y }

/-- The unary minus of a `vec3`. -/
def Vec3.neg (v : Vec3) : Vec3 :=
  { x := -v.x, y := -v.y, z := -v.z }

/-- The call `glm::translate(glm::mat4{1}, v)`: the identity with the
translation `v` in its last column. -/
def glm_translate (v : Vec3) : Matrix (Fin 4) (Fin 4) ℝ :=
  Matrix.of fun r c =>
    if c = 3 then (if r = 0 then v.x else if r = 1 then v.y else if r = 2 then v.z else 1)
    else if r = c then 1 else 0

/-- The column vector `(p, 1)`. -/
def homogeneous (p : Vec3) : Fin 4 → ℝ :=
  ![p.x, p.y, p.z, 1]

/-- The function `make_upside_down_mat`: the identity with the entry `[1][1]`
set to -1. -/
def make_upside_down_mat : Matrix (Fin 4) (Fin 4) ℝ :=
  Matrix.of fun r c => if r = 1 ∧ c = 1 then -1 else (1 : Matrix (Fin 4) (Fin 4) ℝ) r c

/-- The members of `Plane`. -/
structure Plane where
  m_normal : Vec3
  m_d : ℝ

/-- The constructor `Plane::Plane(point, normal)`. -/
noncomputable def Plane.create (point normal : Vec3) : Plane :=
  { m_normal := glm_normalize normal, m_d := -glm_dot normal point }

/-- Modelled from the spec: the accessor `normal()` of the absent header
`d_geometry.h`, the stored normal. -/
def Plane.normal (self : Plane) : Vec3 :=
  self.m_normal

/-- Modelled from the spec: the accessor `coeff()` of the absent header
`d_geometry.h`, the four coefficients (normal, d) of the plane equation. -/
def Plane.coeff (self : Plane) : Vec4 :=
  { x := self.m_normal.x, y := self.m_normal.y, z := self.m_normal.z, w := self.m_d }

/-- The method `Plane::calc_signed_dist_to`. -/
def Plane.calc_signed_dist_to (self : Plane) (p : Vec3) : ℝ :=
  glm_dot4 self.coeff { x := p.x, y := p.y, z := p.z, w := 1 }

/-- The method `Plane::one_point`. -/
def Plane.one_point (self : Plane) : Vec3 :=
  self.normal.scale (self.calc_signed_dist_to { x := 0, y := 0, z := 0 })

/-- The method `Plane::make_reflect_mat`.  The GLM quaternion calls of the
second branch, `glm::mat4_cast(glm::rotate(glm::quat{1, 0, 0, 0}, theta, axis))`,
are the parameter `quat_rotation`; `glm::inverse` is the matrix inverse. -/
noncomputable def Plane.make_reflect_mat (quat_rotation : ℝ → Vec3 → Matrix (Fin 4) (Fin 4) ℝ)
    (self : Plane) : Matrix (Fin 4) (Fin 4) ℝ :=
  let upside_down := make_upside_down_mat
  let cos_theta := glm_dot self.normal { x := 0, y := 1, z := 0 }
  if 1 = cos_theta then
    upside_down
  else
    let translation := glm_translate self.one_point.neg
    let rotate_axis := glm_cross self.normal { x := 0, y := 1, z := 0 }
    let theta := Real.arccos cos_theta
    let rotation := quat_rotation theta rotate_axis
    translation⁻¹ * rotation⁻¹ * upside_down * rotation * translation

/-! ## Frame protocol

The frame loop that waits on fences, acquires, submits and presents is not part
of the translated sources. -/

/-- Modelled from the spec: the state the per-frame protocol of the
PresentationSyncManager works on.  `fence_signaled` holds, for every
frame-in-flight slot, whether its in-flight fence is signaled;
`m_img_in_flight_fences` is the per-image table of the fence (named by its
slot) guarding that image, `none` when unset; `in_flight` lists the submitted
frames whose GPU work has not completed, each as (slot, image written). -/
structure FrameSync where
  fence_signaled : List Bool
  m_img_in_flight_fences : List (Option Nat)
  in_flight : List (Nat × Nat)
  deriving DecidableEq, Repr

/-- Modelled from the spec: the state after initialisation for N images: every
fence created signaled, every image slot unset, nothing in flight. -/
def FrameSync.init (MAX_FRAMES_IN_FLIGHT N : Nat) : FrameSync :=
  { fence_signaled := List.replicate MAX_FRAMES_IN_FLIGHT true
    m_img_in_flight_fences := List.replicate N none
    in_flight := [] }

/-- Modelled from the spec: one frame of the per-frame protocol on slot `slot`
when the acquire step yields image `image`.  (1) wait on the in-flight fence of
the slot; (2) acquire; (3) if the image's slot of the table is set, wait on
that fence too; (4) reset the current fence and record it in the table; (5)
submit the GPU work that signals the fence on completion.  `none` means the
frame cannot proceed: a wait on an unsignaled fence blocks, or an index is out
of range. -/
def FrameSync.begin_frame (self : FrameSync) (slot image : Nat) : Option FrameSync :=
  if self.fence_signaled[slot]? ≠ some true then none
  else
    match self.m_img_in_flight_fences[image]? with
    | none => none
    | some none =>
      some { fence_signaled := self.fence_signaled.set slot false
             m_img_in_flight_fences := self.m_img_in_flight_fences.set image (some slot)
             in_flight := (slot, image) :: self.in_flight }
    | some (some guard) =>
      if self.fence_signaled[guard]? ≠ some true then none
      else
        some { fence_signaled := self.fence_signaled.set slot false
               m_img_in_flight_fences := self.m_img_in_flight_fences.set image (some slot)
               in_flight := (slot, image) :: self.in_flight }

/-- Modelled from the spec: the GPU work submitted for `slot` completes and
signals the slot's fence. -/
def FrameSync.gpu_done (self : FrameSync) (slot : Nat) : FrameSync :=
  { self with
    fence_signaled := self.fence_signaled.set slot true
    in_flight := self.in_flight.filter (fun work => decide (work.1 ≠ slot)) }

/-- An event of the frame loop. -/
inductive FrameEvent where
  | frame (slot image : Nat)
  | gpu_done (slot : Nat)
  deriving DecidableEq, Repr

/-- One event; `none` when the frame cannot proceed. -/
def FrameSync.step (self : FrameSync) : FrameEvent → Option FrameSync
  | .frame slot image => self.begin_frame slot image
  | .gpu_done slot => some (self.gpu_done slot)

/-- A sequence of events, first to last. -/
def FrameSync.run : List FrameEvent → FrameSync → Option FrameSync
  | [], st => some st
  | ev :: evs, st =>
    match st.step ev with
    | none => none
    | some st1 => FrameSync.run evs st1

/-- The invariant of the protocol: every frame in flight has its fence
unsignaled and is recorded as the guard of the image it writes, and no image is
written by two frames in flight. -/
def FrameSync.consistent (st : FrameSync) : Prop :=
  (∀ work ∈ st.in_flight,
    st.fence_signaled[work.1]? = some false ∧
    st.m_img_in_flight_fences[work.2]? = some (some work.1)) ∧
  (st.in_flight.map Prod.snd).Nodup

/-! ## QueueFamilyIndices (`d_swapchain.cpp`) -/

def VK_QUEUE_GRAPHICS_BIT : Nat := 0x00000001

/-- What the device reports for the queue family at one index: the
`queueFlags` of its `VkQueueFamilyProperties` and the `present_support` that
`vkGetPhysicalDeviceSurfaceSupportKHR` writes for it. -/
structure QueueFamily where
  queueFlags : Nat
  present_support : Bool
  deriving DecidableEq, Repr

/-- The method `QueueFamilyIndices::is_complete`.  The constant `NULL_VAL` is
declared in an absent header and is a parameter. -/
def QueueFamilyIndices.is_complete (NULL_VAL : Nat) (self : QueueFamilyIndices) : Bool :=
  if NULL_VAL = self.m_graphics_family then false
  else if NULL_VAL = self.m_present_family then false
  else true

/-- The two assignments of the loop body of `QueueFamilyIndices::init` at
index `i`. -/
def QueueFamilyIndices.visit (self : QueueFamilyIndices) (i : Nat) (queue_family : QueueFamily) :
    QueueFamilyIndices :=
  let s1 : QueueFamilyIndices :=
    if queue_family.queueFlags &&& VK_QUEUE_GRAPHICS_BIT ≠ 0 then
      { self with m_graphics_family := i }
    else self
  if queue_family.present_support = true then { s1 with m_present_family := i } else s1

/-- The loop of `QueueFamilyIndices::init` from index `i` on, over the
families not yet visited; it stops at the first index after which
`is_complete()` holds.  The index is a `uint32_t`; it does not wrap, since the
family count is itself a `uint32_t`. -/
def QueueFamilyIndices.init_loop (NULL_VAL : Nat) :
    Nat → List QueueFamily → QueueFamilyIndices → QueueFamilyIndices
  | _, [], self => self
  | i, queue_family :: rest, self =>
    if (self.visit i queue_family).is_complete NULL_VAL = true then
      self.visit i queue_family
    else
      QueueFamilyIndices.init_loop NULL_VAL (i + 1) rest (self.visit i queue_family)

/-- The method `QueueFamilyIndices::init`; `queue_families` is what the device
reports for the physical device and the surface. -/
def QueueFamilyIndices.init (NULL_VAL : Nat) (self : QueueFamilyIndices)
    (queue_families : List QueueFamily) : QueueFamilyIndices :=
  QueueFamilyIndices.init_loop NULL_VAL 0 queue_families self

/-! ## Negotiation: theorems -/

theorem is_preferred_format_iff (f : VkSurfaceFormatKHR) :
    is_preferred_format f = true ↔ f = preferred_format := by
  cases f with
  | mk fmt cs =>
    simp [is_preferred_format, preferred_format]

theorem find_preferred_of_mem (fs : List VkSurfaceFormatKHR) (h : preferred_format ∈ fs) :
    fs.find? is_preferred_format = some preferred_format := by
  induction fs with
  | nil => simp at h
  | cons f rest ih =>
    by_cases hf : is_preferred_format f = true
    · have hfe : f = preferred_format := (is_preferred_format_iff f).1 hf
      rw [List.find?_cons_of_pos _ hf, hfe]
    · have hne : preferred_format ≠ f := fun e => hf ((is_preferred_format_iff f).2 e.symm)
      have hrest : preferred_format ∈ rest := by
        rcases List.mem_cons.1 h with e | e
        · exact absurd e hne
        · exact e
      rw [List.find?_cons_of_neg _ hf, ih hrest]

theorem find_preferred_of_not_mem (fs : List VkSurfaceFormatKHR) (h : preferred_format ∉ fs) :
    fs.find? is_preferred_format = none := by
  rw [List.find?_eq_none]
  intro f hf hp
  exact h ((is_preferred_format_iff f).1 hp ▸ hf)

/-- C1: on a non-empty list of supported pairs, `choose_surface_format` returns
the pair (B8G8R8A8_SRGB, SRGB_NONLINEAR) when the list contains it, and the
first element of the list otherwise. -/
theorem choose_surface_format_spec (available_formats : List VkSurfaceFormatKHR)
    (hne : available_formats ≠ []) :
    (preferred_format ∈ available_formats →
      choose_surface_format available_formats = some preferred_format) ∧
    (preferred_format ∉ available_formats →
      choose_surface_format available_formats = some (available_formats.head hne)) := by
  constructor
  · intro h
    simp [choose_surface_format, find_preferred_of_mem _ h]
  · intro h
    cases available_formats with
    | nil => exact absurd rfl hne
    | cons f rest =>
      simp [choose_surface_format, find_preferred_of_not_mem _ h]

theorem choose_surface_format_spec_witness :
    choose_surface_format [⟨37, 0⟩, ⟨50, 0⟩] = some preferred_format ∧
    choose_surface_format [⟨37, 0⟩, ⟨50, 1⟩] = some ⟨37, 0⟩ :=
  ⟨(choose_surface_format_spec [⟨37, 0⟩, ⟨50, 0⟩] (by decide)).1 (by decide),
   (choose_surface_format_spec [⟨37, 0⟩, ⟨50, 1⟩] (by decide)).2 (by decide)⟩

/-- C2: for every list of supported present modes and every preferred mode,
`choose_present_mode` returns the Vulkan mode of the preference when the list
contains it and `VK_PRESENT_MODE_FIFO_KHR` when it does not (the empty list
included). -/
theorem choose_present_mode_spec (available_present_modes : List Nat)
    (preferred_mode : PresentMode) :
    (preferred_mode.toVk ∈ available_present_modes →
      choose_present_mode available_present_modes preferred_mode = preferred_mode.toVk) ∧
    (preferred_mode.toVk ∉ available_present_modes →
      choose_present_mode available_present_modes preferred_mode = VK_PRESENT_MODE_FIFO_KHR) ∧
    choose_present_mode [] preferred_mode = VK_PRESENT_MODE_FIFO_KHR := by
  refine ⟨?_, ?_, rfl⟩
  · induction available_present_modes with
    | nil => intro h; simp at h
    | cons m rest ih =>
      intro h
      cases preferred_mode with
      | fifo =>
        by_cases hm : VK_PRESENT_MODE_FIFO_KHR = m
        · simp [choose_present_mode, hm, PresentMode.toVk]
        · have hrest : PresentMode.fifo.toVk ∈ rest := by
            rcases List.mem_cons.1 h with e | e
            · exact absurd e hm
            · exact e
          simpa [choose_present_mode, hm] using ih hrest
      | mailbox =>
        by_cases hm : VK_PRESENT_MODE_MAILBOX_KHR = m
        · simp [choose_present_mode, hm, PresentMode.toVk]
        · have hrest : PresentMode.mailbox.toVk ∈ rest := by
            rcases List.mem_cons.1 h with e | e
            · exact absurd e hm
            · exact e
          simpa [choose_present_mode, hm] using ih hrest
  · induction available_present_modes with
    | nil => intro _; rfl
    | cons m rest ih =>
      intro h
      have hm : preferred_mode.toVk ≠ m := fun e => h (e ▸ List.mem_cons_self _ _)
      have hrest : preferred_mode.toVk ∉ rest := fun e => h (List.mem_cons_of_mem _ e)
      cases preferred_mode with
      | fifo =>
        have hm2 : ¬ VK_PRESENT_MODE_FIFO_KHR = m := hm
        simpa [choose_present_mode, hm2] using ih hrest
      | mailbox =>
        have hm2 : ¬ VK_PRESENT_MODE_MAILBOX_KHR = m := hm
        simpa [choose_present_mode, hm2] using ih hrest

/-- C3: when the reported current width is not the sentinel `0xFFFFFFFF`,
`choose_extent` returns the reported current extent, whatever the requested
width and height are. -/
theorem choose_extent_fixed (capabilities : VkSurfaceCapabilitiesKHR) (w h : Nat)
    (hfixed : capabilities.currentExtent.width ≠ UINT32_MAX) :
    choose_extent capabilities w h = capabilities.currentExtent ∧
    (choose_extent capabilities w h).width = capabilities.currentExtent.width ∧
    (choose_extent capabilities w h).height = capabilities.currentExtent.height := by
  simp [choose_extent, hfixed]

theorem choose_extent_fixed_witness :
    choose_extent ⟨2, 3, ⟨800, 600⟩, ⟨64, 64⟩, ⟨1920, 1080⟩, 1⟩ 5000 7 = ⟨800, 600⟩ :=
  (choose_extent_fixed ⟨2, 3, ⟨800, 600⟩, ⟨64, 64⟩, ⟨1920, 1080⟩, 1⟩ 5000 7 (by decide)).1

theorem clamp_spec (v minv maxv : Nat) (hb : minv ≤ maxv) :
    (v < minv → clamp v minv maxv = minv) ∧
    (maxv < v → clamp v minv maxv = maxv) ∧
    (minv ≤ v → v ≤ maxv → clamp v minv maxv = v) ∧
    minv ≤ clamp v minv maxv ∧ clamp v minv maxv ≤ maxv := by
  unfold clamp
  refine ⟨fun h => ?_, fun h => ?_, fun h1 h2 => ?_, ?_, ?_⟩ <;> omega

/-- C4: when the surface reports the sentinel width `0xFFFFFFFF` and its bounds
satisfy min ≤ max component-wise, `choose_extent` returns the requested width
and height each clamped into its bounds: the lower bound when the request is
below it, the upper bound when the request is above it, the request itself
otherwise; so the result lies inside the bounds. -/
theorem choose_extent_flexible (capabilities : VkSurfaceCapabilitiesKHR) (w h : Nat)
    (hflex : capabilities.currentExtent.width = UINT32_MAX)
    (hw : capabilities.minImageExtent.width ≤ capabilities.maxImageExtent.width)
    (hh : capabilities.minImageExtent.height ≤ capabilities.maxImageExtent.height) :
    (choose_extent capabilities w h).width =
      (if w < capabilities.minImageExtent.width then capabilities.minImageExtent.width
       else if capabilities.maxImageExtent.width < w then capabilities.maxImageExtent.width
       else w) ∧
    (choose_extent capabilities w h).height =
      (if h < capabilities.minImageExtent.height then capabilities.minImageExtent.height
       else if capabilities.maxImageExtent.height < h then capabilities.maxImageExtent.height
       else h) ∧
    capabilities.minImageExtent.width ≤ (choose_extent capabilities w h).width ∧
    (choose_extent capabilities w h).width ≤ capabilities.maxImageExtent.width ∧
    capabilities.minImageExtent.height ≤ (choose_extent capabilities w h).height ∧
    (choose_extent capabilities w h).height ≤ capabilities.maxImageExtent.height := by
  simp only [choose_extent, hflex, ne_eq, not_true_eq_false, if_false]
  unfold clamp
  refine ⟨?_, ?_, ?_, ?_, ?_, ?_⟩
  · split_ifs <;> omega
  · split_ifs <;> omega
  · omega
  · omega
  · omega
  · omega

theorem choose_extent_flexible_witness :
    choose_extent ⟨2, 3, ⟨4294967295, 4294967295⟩, ⟨64, 64⟩, ⟨1920, 1080⟩, 1⟩ 5000 5000
      = ⟨1920, 1080⟩ := by
  have h := choose_extent_flexible
    ⟨2, 3, ⟨4294967295, 4294967295⟩, ⟨64, 64⟩, ⟨1920, 1080⟩, 1⟩ 5000 5000
    (by decide) (by decide) (by decide)
  cases hc : choose_extent ⟨2, 3, ⟨4294967295, 4294967295⟩, ⟨64, 64⟩, ⟨1920, 1080⟩, 1⟩ 5000 5000 with
  | mk cw ch =>
    rw [hc] at h
    have h1 : cw = 1920 := by simpa using h.1
    have h2 : ch = 1080 := by simpa using h.2.1
    rw [h1, h2]


/-- The claim of the specification for `choose_image_count` holds whenever the
increment does not leave the 32-bit range. -/
theorem choose_image_count_in_range (swapchain_support : SwapChainSupportDetails)
    (hmin : swapchain_support.m_capabilities.minImageCount < UINT32_MAX) :
    choose_image_count swapchain_support =
      (if swapchain_support.m_capabilities.maxImageCount ≠ 0 ∧
          swapchain_support.m_capabilities.maxImageCount <
            swapchain_support.m_capabilities.minImageCount + 1 then
        swapchain_support.m_capabilities.maxImageCount
      else swapchain_support.m_capabilities.minImageCount + 1) := by
  unfold UINT32_MAX at hmin
  have hmod : (swapchain_support.m_capabilities.minImageCount + 1) % 2 ^ 32 =
      swapchain_support.m_capabilities.minImageCount + 1 :=
    Nat.mod_eq_of_lt (by norm_num; omega)
  simp only [choose_image_count, hmod]
  split_ifs <;> omega

/-- C5: at `minImageCount = maxImageCount = 0xFFFFFFFF` the 32-bit increment of
`choose_image_count` wraps to 0, the bound check `0 > maxImageCount` is false,
and the function returns 0, neither `minImageCount + 1` nor the nonzero
maximum; the two examples of the specification evaluate to 3 and 2. -/
theorem choose_image_count_wraps :
    choose_image_count
      { m_capabilities := ⟨4294967295, 4294967295, ⟨800, 600⟩, ⟨1, 1⟩, ⟨4096, 4096⟩, 1⟩,
        m_formats := [], m_present_modes := [] } = 0 ∧
    choose_image_count
      { m_capabilities := ⟨2, 0, ⟨800, 600⟩, ⟨1, 1⟩, ⟨4096, 4096⟩, 1⟩,
        m_formats := [], m_present_modes := [] } = 3 ∧
    choose_image_count
      { m_capabilities := ⟨2, 2, ⟨800, 600⟩, ⟨1, 1⟩, ⟨4096, 4096⟩, 1⟩,
        m_formats := [], m_present_modes := [] } = 2 := by
  refine ⟨?_, ?_, ?_⟩ <;> decide

theorem two_pow_and_rotate_90 (k : Nat) :
    2 ^ k &&& VK_SURFACE_TRANSFORM_ROTATE_90_BIT_KHR ≠ 0 ↔ k = 1 := by
  have h : VK_SURFACE_TRANSFORM_ROTATE_90_BIT_KHR = 2 ^ 1 := rfl
  rw [h, Nat.and_two_pow, Nat.testBit_two_pow]
  by_cases hk : k = 1 <;> simp [hk]

theorem two_pow_and_rotate_270 (k : Nat) :
    2 ^ k &&& VK_SURFACE_TRANSFORM_ROTATE_270_BIT_KHR ≠ 0 ↔ k = 3 := by
  have h : VK_SURFACE_TRANSFORM_ROTATE_270_BIT_KHR = 2 ^ 3 := rfl
  rw [h, Nat.and_two_pow, Nat.testBit_two_pow]
  by_cases hk : k = 3 <;> simp [hk]

/-- C6: for every reported current extent and every single-bit transform
`2 ^ k`, `get_identity_screen_resoultion` returns the extent with width and
height exchanged when the transform is ROTATE_90 or ROTATE_270, and the extent
as reported for every other single-bit value. -/
theorem get_identity_screen_resoultion_spec (capabilities : VkSurfaceCapabilitiesKHR)
    (k : Nat) (hbit : capabilities.currentTransform = 2 ^ k) :
    ((capabilities.currentTransform = VK_SURFACE_TRANSFORM_ROTATE_90_BIT_KHR ∨
        capabilities.currentTransform = VK_SURFACE_TRANSFORM_ROTATE_270_BIT_KHR) →
      get_identity_screen_resoultion capabilities =
        { width := capabilities.currentExtent.height
          height := capabilities.currentExtent.width }) ∧
    (¬ (capabilities.currentTransform = VK_SURFACE_TRANSFORM_ROTATE_90_BIT_KHR ∨
        capabilities.currentTransform = VK_SURFACE_TRANSFORM_ROTATE_270_BIT_KHR) →
      get_identity_screen_resoultion capabilities = capabilities.currentExtent) := by
  have h90 : capabilities.currentTransform = VK_SURFACE_TRANSFORM_ROTATE_90_BIT_KHR ↔ k = 1 := by
    rw [hbit]
    constructor
    · intro h
      exact Nat.pow_right_injective (le_refl 2) h
    · intro h
      rw [h]; rfl
  have h270 : capabilities.currentTransform = VK_SURFACE_TRANSFORM_ROTATE_270_BIT_KHR ↔ k = 3 := by
    rw [hbit]
    constructor
    · intro h
      exact Nat.pow_right_injective (le_refl 2) h
    · intro h
      rw [h]; rfl
  have hcond : (capabilities.currentTransform &&& VK_SURFACE_TRANSFORM_ROTATE_90_BIT_KHR ≠ 0 ∨
      capabilities.currentTransform &&& VK_SURFACE_TRANSFORM_ROTATE_270_BIT_KHR ≠ 0) ↔
      (capabilities.currentTransform = VK_SURFACE_TRANSFORM_ROTATE_90_BIT_KHR ∨
        capabilities.currentTransform = VK_SURFACE_TRANSFORM_ROTATE_270_BIT_KHR) := by
    rw [h90, h270, hbit, two_pow_and_rotate_90, two_pow_and_rotate_270]
  constructor
  · intro h
    simp only [get_identity_screen_resoultion]
    rw [if_pos (hcond.2 h)]
  · intro h
    simp only [get_identity_screen_resoultion]
    rw [if_neg (fun hc => h (hcond.1 hc))]

theorem get_identity_screen_resoultion_spec_witness :
    get_identity_screen_resoultion ⟨2, 3, ⟨1920, 1080⟩, ⟨1, 1⟩, ⟨4096, 4096⟩, 8⟩ = ⟨1080, 1920⟩ ∧
    get_identity_screen_resoultion ⟨2, 3, ⟨1920, 1080⟩, ⟨1, 1⟩, ⟨4096, 4096⟩, 32⟩
      = ⟨1920, 1080⟩ :=
  ⟨(get_identity_screen_resoultion_spec ⟨2, 3, ⟨1920, 1080⟩, ⟨1, 1⟩, ⟨4096, 4096⟩, 8⟩ 3
      (by decide)).1 (by decide),
   (get_identity_screen_resoultion_spec ⟨2, 3, ⟨1920, 1080⟩, ⟨1, 1⟩, ⟨4096, 4096⟩, 32⟩ 5
      (by decide)).2 (by decide)⟩

/-! ## Acquire -/

/-- C8: `acquire_next_img_index` returns (success, i) for `VK_SUCCESS`,
(suboptimal, i) for `VK_SUBOPTIMAL_KHR`, (out_of_date, max_value) for
`VK_ERROR_OUT_OF_DATE_KHR` and (fail, max_value) for every other result code;
so when the status is out_of_date or fail the index is the sentinel and the
pair does not depend on the index the driver wrote. -/
theorem acquire_next_img_index_spec (max_value : SwapchainIndex) (r : Int) (i : Nat) :
    (r = VK_SUCCESS → SwapchainManager.acquire_next_img_index max_value r i =
      (ImgAcquireResult.success, { m_value := i })) ∧
    (r = VK_SUBOPTIMAL_KHR → SwapchainManager.acquire_next_img_index max_value r i =
      (ImgAcquireResult.suboptimal, { m_value := i })) ∧
    (r = VK_ERROR_OUT_OF_DATE_KHR → SwapchainManager.acquire_next_img_index max_value r i =
      (ImgAcquireResult.out_of_date, max_value)) ∧
    (r ≠ VK_SUCCESS → r ≠ VK_SUBOPTIMAL_KHR → r ≠ VK_ERROR_OUT_OF_DATE_KHR →
      SwapchainManager.acquire_next_img_index max_value r i =
        (ImgAcquireResult.fail, max_value)) ∧
    ((SwapchainManager.acquire_next_img_index max_value r i).1 = ImgAcquireResult.out_of_date ∨
      (SwapchainManager.acquire_next_img_index max_value r i).1 = ImgAcquireResult.fail →
      (SwapchainManager.acquire_next_img_index max_value r i).2 = max_value ∧
      ∀ j : Nat, SwapchainManager.acquire_next_img_index max_value r j =
        SwapchainManager.acquire_next_img_index max_value r i) := by
  refine ⟨?_, ?_, ?_, ?_, ?_⟩
  · intro h
    subst h
    simp [SwapchainManager.acquire_next_img_index, VK_SUCCESS, VK_SUBOPTIMAL_KHR,
      VK_ERROR_OUT_OF_DATE_KHR]
  · intro h
    subst h
    simp [SwapchainManager.acquire_next_img_index, VK_SUBOPTIMAL_KHR,
      VK_ERROR_OUT_OF_DATE_KHR]
  · intro h
    subst h
    simp [SwapchainManager.acquire_next_img_index]
  · intro h1 h2 h3
    simp [SwapchainManager.acquire_next_img_index, h1, h2, h3]
  · unfold SwapchainManager.acquire_next_img_index
    split_ifs <;> simp

/-! ## SwapchainSyncManager: theorems -/

theorem vector_resize_length {α : Type} (xs : List α) (n : Nat) (value : α) :
    (vector_resize xs n value).length = n := by
  simp only [vector_resize, List.length_append, List.length_take, List.length_replicate]
  omega

theorem vector_resize_nil {α : Type} (n : Nat) (value : α) :
    vector_resize ([] : List α) n value = List.replicate n value := by
  simp [vector_resize]

theorem for_each_length {α : Type} (f : α → VkDevice → α × VkDevice) (xs : List α)
    (dev : VkDevice) : (for_each f xs dev).1.length = xs.length := by
  induction xs generalizing dev with
  | nil => rfl
  | cons x xs ih => simp [for_each, ih]

theorem sync_destroy_empty (self : SwapchainSyncManager) (dev : VkDevice) :
    (self.destroy dev).1 = {} := rfl

/-- C9: whatever state the sync manager is in and whatever the image count N,
after `init(N)` the image-available, render-finished and frame-in-flight fence
lists each have `MAX_FRAMES_IN_FLIGHT` elements, and the image-in-flight table
has N entries, all of them null. -/
theorem sync_init_sizes (MAX_FRAMES_IN_FLIGHT : Nat) (self : SwapchainSyncManager)
    (swapchain_count : Nat) (logi_device : VkDevice) :
    (self.init MAX_FRAMES_IN_FLIGHT swapchain_count logi_device).1.m_img_available.length
      = MAX_FRAMES_IN_FLIGHT ∧
    (self.init MAX_FRAMES_IN_FLIGHT swapchain_count logi_device).1.m_render_finished.length
      = MAX_FRAMES_IN_FLIGHT ∧
    (self.init MAX_FRAMES_IN_FLIGHT swapchain_count logi_device).1.m_frame_in_flight_fences.length
      = MAX_FRAMES_IN_FLIGHT ∧
    (self.init MAX_FRAMES_IN_FLIGHT swapchain_count logi_device).1.m_img_in_flight_fences.length
      = swapchain_count ∧
    (self.init MAX_FRAMES_IN_FLIGHT swapchain_count logi_device).1.m_img_in_flight_fences
      = List.replicate swapchain_count none ∧
    ∀ p ∈ (self.init MAX_FRAMES_IN_FLIGHT swapchain_count logi_device).1.m_img_in_flight_fences,
      p = none := by
  have htable :
      (self.init MAX_FRAMES_IN_FLIGHT swapchain_count logi_device).1.m_img_in_flight_fences
        = List.replicate swapchain_count none := by
    simp only [SwapchainSyncManager.init, sync_destroy_empty]
    exact vector_resize_nil _ _
  refine ⟨?_, ?_, ?_, ?_, htable, ?_⟩
  · simp only [SwapchainSyncManager.init, for_each_length, vector_resize_length]
  · simp only [SwapchainSyncManager.init, for_each_length, vector_resize_length]
  · simp only [SwapchainSyncManager.init, for_each_length, vector_resize_length]
  · rw [htable, List.length_replicate]
  · rw [htable]
    intro p hp
    exact List.eq_of_mem_replicate hp

/-! ## SwapchainManager: theorems -/

theorem init_views_length (reply : DriverReply) (format : Nat) (images : List Nat) :
    ∀ (i : Nat) (views : List ImageView) (dev : VkDevice) (views1 : List ImageView)
      (dev1 : VkDevice),
      init_views reply format i images views dev = some (views1, dev1) →
      views1.length = views.length := by
  induction images with
  | nil =>
    intro i views dev views1 dev1 h
    simp only [init_views, Option.some.injEq, Prod.mk.injEq] at h
    rw [h.1]
  | cons image images ih =>
    intro i views dev views1 dev1 h
    cases views with
    | nil => simp [init_views] at h
    | cons view views =>
      simp only [init_views] at h
      split at h
      · exact absurd h (by simp)
      · split at h
        · exact absurd h (by simp)
        · rename_i vs d2 heq
          simp only [Option.some.injEq, Prod.mk.injEq] at h
          rw [← h.1, List.length_cons, List.length_cons, ih _ _ _ _ _ heq]

theorem destroy_except_swapchain_fields (self : SwapchainManager) (dev : VkDevice) :
    (self.destroy_except_swapchain dev).1.m_images = [] ∧
    (self.destroy_except_swapchain dev).1.m_views = [] ∧
    (self.destroy_except_swapchain dev).1.m_swapChain = self.m_swapChain ∧
    (self.destroy_except_swapchain dev).1.m_sync_man = {} :=
  ⟨rfl, rfl, rfl, rfl⟩

theorem set_transform_values_eq_some (s4 s5 : SwapchainManager)
    (h : s4.set_transform_values = some s5) :
    s5.m_images = s4.m_images ∧ s5.m_views = s4.m_views ∧
    s5.m_identity_extent = s4.m_identity_extent ∧ s5.m_transform = s4.m_transform ∧
    s5.m_sync_man = s4.m_sync_man ∧ s5.m_swapChain = s4.m_swapChain ∧
    s5.m_image_format = s4.m_image_format ∧
    (((s4.m_transform = VK_SURFACE_TRANSFORM_IDENTITY_BIT_KHR ∨
        s4.m_transform = VK_SURFACE_TRANSFORM_ROTATE_180_BIT_KHR) ∧
      s5.m_perspective_ratio =
        (s4.m_identity_extent.width : ℚ) / (s4.m_identity_extent.height : ℚ)) ∨
     ((s4.m_transform = VK_SURFACE_TRANSFORM_ROTATE_90_BIT_KHR ∨
        s4.m_transform = VK_SURFACE_TRANSFORM_ROTATE_270_BIT_KHR) ∧
      s5.m_perspective_ratio =
        (s4.m_identity_extent.height : ℚ) / (s4.m_identity_extent.width : ℚ))) := by
  unfold SwapchainManager.set_transform_values at h
  split_ifs at h with h1 h2 h3 h4
  · simp only [Option.some.injEq] at h
    subst h
    refine ⟨rfl, rfl, rfl, rfl, rfl, rfl, rfl, Or.inl ⟨Or.inl h1, rfl⟩⟩
  · simp only [Option.some.injEq] at h
    subst h
    refine ⟨rfl, rfl, rfl, rfl, rfl, rfl, rfl, Or.inr ⟨Or.inl h2, rfl⟩⟩
  · simp only [Option.some.injEq] at h
    subst h
    refine ⟨rfl, rfl, rfl, rfl, rfl, rfl, rfl, Or.inl ⟨Or.inr h3, rfl⟩⟩
  · simp only [Option.some.injEq] at h
    subst h
    refine ⟨rfl, rfl, rfl, rfl, rfl, rfl, rfl, Or.inr ⟨Or.inr h4, rfl⟩⟩

/-- The identity extent at the four transforms `init` accepts. -/
theorem identity_extent_cases (capabilities : VkSurfaceCapabilitiesKHR) :
    ((capabilities.currentTransform = VK_SURFACE_TRANSFORM_IDENTITY_BIT_KHR ∨
        capabilities.currentTransform = VK_SURFACE_TRANSFORM_ROTATE_180_BIT_KHR) →
      get_identity_screen_resoultion capabilities = capabilities.currentExtent) ∧
    ((capabilities.currentTransform = VK_SURFACE_TRANSFORM_ROTATE_90_BIT_KHR ∨
        capabilities.currentTransform = VK_SURFACE_TRANSFORM_ROTATE_270_BIT_KHR) →
      get_identity_screen_resoultion capabilities =
        { width := capabilities.currentExtent.height
          height := capabilities.currentExtent.width }) := by
  constructor
  · intro ht
    rcases ht with ht | ht
    · simp only [get_identity_screen_resoultion, ht]
      rw [if_neg (by decide)]
    · simp only [get_identity_screen_resoultion, ht]
      rw [if_neg (by decide)]
  · intro ht
    rcases ht with ht | ht
    · simp only [get_identity_screen_resoultion, ht]
      rw [if_pos (by decide)]
    · simp only [get_identity_screen_resoultion, ht]
      rw [if_pos (by decide)]

/-- What a returning `init_swapchain` has stored. -/
theorem init_swapchain_eq_some (self : SwapchainManager) (w h : Nat)
    (indices : QueueFamilyIndices) (surface : Nat) (reply : DriverReply) (dev : VkDevice)
    (s5 : SwapchainManager) (dev3 : VkDevice)
    (hinit : self.init_swapchain w h indices surface reply dev = some (s5, dev3)) :
    ∃ s4 : SwapchainManager,
      s4.set_transform_values = some s5 ∧
      s4.m_images = (List.range (reply.image_count % 2 ^ 32)).map reply.image_handle ∧
      s4.m_views.length = s4.m_images.length ∧
      s4.m_identity_extent = get_identity_screen_resoultion reply.support.m_capabilities ∧
      s4.m_transform = reply.support.m_capabilities.currentTransform ∧
      s4.m_sync_man = {} ∧
      choose_surface_format reply.support.m_formats = some ⟨s4.m_image_format,
        (choose_surface_format reply.support.m_formats).elim 0 VkSurfaceFormatKHR.colorSpace⟩ := by
  unfold SwapchainManager.init_swapchain at hinit
  simp only at hinit
  split at hinit
  · exact absurd hinit (by simp)
  · rename_i fmt hfmt
    split at hinit
    · exact absurd hinit (by simp)
    · split at hinit
      · exact absurd hinit (by simp)
      · rename_i views d2 hviews
        split at hinit
        · exact absurd hinit (by simp)
        · rename_i s5a hs5
          simp only [Option.some.injEq, Prod.mk.injEq] at hinit
          rw [hinit.1] at hs5
          refine ⟨_, hs5, ?_, ?_, rfl, rfl, rfl, ?_⟩
          · simp only [destroy_except_swapchain_fields, vector_resize_length]
          · have hl := init_views_length _ _ _ _ _ _ _ _ hviews
            simp only [hl, vector_resize_length]
          · simp [hfmt]

/-- The images and views a returning `init_swapchain` has stored are equally
many, fewer than `2 ^ 32`. -/
theorem init_swapchain_counts (self : SwapchainManager) (w h : Nat)
    (indices : QueueFamilyIndices) (surface : Nat) (reply : DriverReply) (dev : VkDevice)
    (s5 : SwapchainManager) (dev3 : VkDevice)
    (hinit : self.init_swapchain w h indices surface reply dev = some (s5, dev3)) :
    s5.m_views.length = s5.m_images.length ∧
    s5.m_images.length = reply.image_count % 2 ^ 32 := by
  obtain ⟨s4, hs5, himg, hviews, _⟩ := init_swapchain_eq_some self w h indices surface reply dev
    s5 dev3 hinit
  obtain ⟨e1, e2, _⟩ := set_transform_values_eq_some s4 s5 hs5
  rw [e1, e2, hviews, himg]
  simp

/-- The perspective ratio a returning `init_swapchain` has stored, in terms of
the identity extent and of the raw reported extent. -/
theorem init_swapchain_ratio (self : SwapchainManager) (w h : Nat)
    (indices : QueueFamilyIndices) (surface : Nat) (reply : DriverReply) (dev : VkDevice)
    (s5 : SwapchainManager) (dev3 : VkDevice)
    (hinit : self.init_swapchain w h indices surface reply dev = some (s5, dev3)) :
    s5.m_identity_extent = get_identity_screen_resoultion reply.support.m_capabilities ∧
    ((reply.support.m_capabilities.currentTransform = VK_SURFACE_TRANSFORM_IDENTITY_BIT_KHR ∨
        reply.support.m_capabilities.currentTransform
          = VK_SURFACE_TRANSFORM_ROTATE_180_BIT_KHR) ∧
      s5.m_perspective_ratio =
        (s5.m_identity_extent.width : ℚ) / (s5.m_identity_extent.height : ℚ) ∨
     (reply.support.m_capabilities.currentTransform = VK_SURFACE_TRANSFORM_ROTATE_90_BIT_KHR ∨
        reply.support.m_capabilities.currentTransform
          = VK_SURFACE_TRANSFORM_ROTATE_270_BIT_KHR) ∧
      s5.m_perspective_ratio =
        (s5.m_identity_extent.height : ℚ) / (s5.m_identity_extent.width : ℚ)) ∧
    s5.m_perspective_ratio =
      (reply.support.m_capabilities.currentExtent.width : ℚ) /
        (reply.support.m_capabilities.currentExtent.height : ℚ) := by
  obtain ⟨s4, hs5, _, _, hext, htr, _⟩ := init_swapchain_eq_some self w h indices surface reply
    dev s5 dev3 hinit
  obtain ⟨_, _, e3, _, _, _, _, hr⟩ := set_transform_values_eq_some s4 s5 hs5
  rw [htr] at hr
  rw [hext] at e3
  refine ⟨e3, ?_, ?_⟩
  · rw [e3, ← hext]
    exact hr
  · rw [hext] at hr
    rcases hr with ⟨ht, hr⟩ | ⟨ht, hr⟩
    · rw [hr, (identity_extent_cases _).1 ht]
    · rw [hr, (identity_extent_cases _).2 ht]

/-- A returning `init` is a returning `init_swapchain` followed by the
initialisation of the sync manager. -/
theorem init_eq_some (MAX_FRAMES_IN_FLIGHT : Nat) (self : SwapchainManager) (w h : Nat)
    (indices : QueueFamilyIndices) (surface : Nat) (reply : DriverReply) (dev : VkDevice)
    (st : SwapchainManager × VkDevice)
    (hinit : self.init MAX_FRAMES_IN_FLIGHT w h indices surface reply dev = some st) :
    ∃ (s5 : SwapchainManager) (dev3 : VkDevice) (n : Nat),
      self.init_swapchain w h indices surface reply dev = some (s5, dev3) ∧
      s5.size = some n ∧
      st.1 = { s5 with m_sync_man := (s5.m_sync_man.init MAX_FRAMES_IN_FLIGHT n dev3).1 } := by
  unfold SwapchainManager.init at hinit
  split at hinit
  · exact absurd hinit (by simp)
  · rename_i s5 dev3 hs
    split at hinit
    · exact absurd hinit (by simp)
    · rename_i n hn
      simp only [Option.some.injEq] at hinit
      exact ⟨s5, dev3, n, hs, hn, by rw [← hinit]⟩

/-- C7 (amended): for a raw reported current extent (W, H) with W, H > 0,
whenever `init` returns, the perspective ratio it stored is W / H of that raw
extent, an exact quotient (ratio * H = W), for each transform it accepts; for
ROTATE_90 and ROTATE_270 the stored identity extent is (H, W) and the ratio is
height / width of that identity extent, which is again W / H of the raw
extent, and differs from H / W unless W = H. -/
theorem init_perspective_ratio (MAX_FRAMES_IN_FLIGHT : Nat) (self : SwapchainManager)
    (w h : Nat) (indices : QueueFamilyIndices) (surface : Nat) (reply : DriverReply)
    (dev : VkDevice) (st : SwapchainManager × VkDevice)
    (hW : 0 < reply.support.m_capabilities.currentExtent.width)
    (hH : 0 < reply.support.m_capabilities.currentExtent.height)
    (hinit : self.init MAX_FRAMES_IN_FLIGHT w h indices surface reply dev = some st) :
    ((reply.support.m_capabilities.currentTransform = VK_SURFACE_TRANSFORM_ROTATE_90_BIT_KHR ∨
        reply.support.m_capabilities.currentTransform
          = VK_SURFACE_TRANSFORM_ROTATE_270_BIT_KHR) →
      st.1.m_identity_extent =
        { width := reply.support.m_capabilities.currentExtent.height
          height := reply.support.m_capabilities.currentExtent.width } ∧
      st.1.m_perspective_ratio =
        (st.1.m_identity_extent.height : ℚ) / (st.1.m_identity_extent.width : ℚ) ∧
      st.1.m_perspective_ratio =
        (reply.support.m_capabilities.currentExtent.width : ℚ) /
          (reply.support.m_capabilities.currentExtent.height : ℚ) ∧
      st.1.m_perspective_ratio * (reply.support.m_capabilities.currentExtent.height : ℚ)
        = (reply.support.m_capabilities.currentExtent.width : ℚ) ∧
      (reply.support.m_capabilities.currentExtent.width
          ≠ reply.support.m_capabilities.currentExtent.height →
        st.1.m_perspective_ratio ≠
          (reply.support.m_capabilities.currentExtent.height : ℚ) /
            (reply.support.m_capabilities.currentExtent.width : ℚ))) ∧
    ((reply.support.m_capabilities.currentTransform = VK_SURFACE_TRANSFORM_IDENTITY_BIT_KHR ∨
        reply.support.m_capabilities.currentTransform
          = VK_SURFACE_TRANSFORM_ROTATE_180_BIT_KHR) →
      st.1.m_perspective_ratio =
        (reply.support.m_capabilities.currentExtent.width : ℚ) /
          (reply.support.m_capabilities.currentExtent.height : ℚ) ∧
      st.1.m_perspective_ratio * (reply.support.m_capabilities.currentExtent.height : ℚ)
        = (reply.support.m_capabilities.currentExtent.width : ℚ)) := by
  obtain ⟨s5, dev3, n, hs, _, hst⟩ := init_eq_some MAX_FRAMES_IN_FLIGHT self w h indices surface
    reply dev st hinit
  obtain ⟨hext, _, hratio⟩ := init_swapchain_ratio self w h indices surface reply dev s5 dev3 hs
  have e1 : st.1.m_identity_extent = s5.m_identity_extent := by rw [hst]
  have e2 : st.1.m_perspective_ratio = s5.m_perspective_ratio := by rw [hst]
  have hWq : (reply.support.m_capabilities.currentExtent.width : ℚ) ≠ 0 :=
    Nat.cast_ne_zero.2 hW.ne'
  have hHq : (reply.support.m_capabilities.currentExtent.height : ℚ) ≠ 0 :=
    Nat.cast_ne_zero.2 hH.ne'
  have hquot : s5.m_perspective_ratio
      * (reply.support.m_capabilities.currentExtent.height : ℚ)
      = (reply.support.m_capabilities.currentExtent.width : ℚ) := by
    rw [hratio]
    exact div_mul_cancel₀ _ hHq
  constructor
  · intro ht
    have hid := (identity_extent_cases reply.support.m_capabilities).2 ht
    rw [e1, e2, hext, hid]
    refine ⟨rfl, hratio, hratio, hquot, ?_⟩
    intro hne heq
    apply hne
    rw [hratio, div_eq_div_iff hHq hWq] at heq
    have hnat : reply.support.m_capabilities.currentExtent.width
        * reply.support.m_capabilities.currentExtent.width
        = reply.support.m_capabilities.currentExtent.height
          * reply.support.m_capabilities.currentExtent.height := by
      exact_mod_cast heq
    exact Nat.mul_self_inj.1 hnat
  · intro _
    rw [e2]
    exact ⟨hratio, hquot⟩

theorem init_perspective_ratio_witness :
    ∃ st, SwapchainManager.fresh.init 2 800 600 ⟨0, 0⟩ 7 reply_rotate_90 ⟨0, []⟩ = some st ∧
      st.1.m_identity_extent = ⟨1080, 1920⟩ ∧
      st.1.m_perspective_ratio = (1920 : ℚ) / 1080 :=
  ⟨_, rfl,
    ((init_perspective_ratio 2 SwapchainManager.fresh 800 600 ⟨0, 0⟩ 7 reply_rotate_90 ⟨0, []⟩ _
      (by decide) (by decide) rfl).1 (Or.inl rfl)).1,
    ((init_perspective_ratio 2 SwapchainManager.fresh 800 600 ⟨0, 0⟩ 7 reply_rotate_90 ⟨0, []⟩ _
      (by decide) (by decide) rfl).1 (Or.inl rfl)).2.2.1⟩

/-- C7, as stated, fails: on a surface with transform ROTATE_90 and raw
reported extent (1920, 1080), `init` returns and the stored perspective ratio
is 1920 / 1080 = W / H, which differs from H / W = 1080 / 1920. -/
theorem init_rotate_90_ratio_counterexample :
    reply_rotate_90.support.m_capabilities.currentTransform
      = VK_SURFACE_TRANSFORM_ROTATE_90_BIT_KHR ∧
    reply_rotate_90.support.m_capabilities.currentExtent = ⟨1920, 1080⟩ ∧
    Option.map (fun st => st.1.m_perspective_ratio)
      (SwapchainManager.fresh.init 2 800 600 ⟨0, 0⟩ 7 reply_rotate_90 ⟨0, []⟩)
        = some ((1920 : ℚ) / 1080) ∧
    (1920 : ℚ) / 1080 ≠ (1080 : ℚ) / 1920 :=
  ⟨rfl, rfl, rfl, by norm_num⟩

/-- With as many views as images, and fewer than `2 ^ 32` of them, `size()`
passes its assertion and returns the count. -/
theorem size_of_counts (s : SwapchainManager) (hv : s.m_views.length = s.m_images.length)
    (hlt : s.m_images.length < 2 ^ 32) : s.size = some s.m_images.length := by
  unfold SwapchainManager.size SwapchainManager.views
  rw [if_pos hv, hv, Nat.mod_eq_of_lt hlt]

theorem destroy_fields (self : SwapchainManager) (dev : VkDevice) :
    (self.destroy dev).1.m_images = [] ∧ (self.destroy dev).1.m_views = [] := by
  unfold SwapchainManager.destroy
  simp only
  split_ifs
  · exact ⟨rfl, rfl⟩
  · exact ⟨rfl, rfl⟩

theorem apply_preserves_counts (MAX_FRAMES_IN_FLIGHT : Nat) (call : ManagerCall)
    (st st1 : SwapchainManager × VkDevice)
    (happly : call.apply MAX_FRAMES_IN_FLIGHT st = some st1) :
    st1.1.m_views.length = st1.1.m_images.length ∧ st1.1.m_images.length < 2 ^ 32 := by
  cases call with
  | init w h indices surface reply =>
    simp only [ManagerCall.apply] at happly
    obtain ⟨s5, dev3, n, hs, _, hst⟩ := init_eq_some MAX_FRAMES_IN_FLIGHT st.1 w h indices
      surface reply st.2 st1 happly
    obtain ⟨hv, hi⟩ := init_swapchain_counts st.1 w h indices surface reply st.2 s5 dev3 hs
    have e1 : st1.1.m_views = s5.m_views := by rw [hst]
    have e2 : st1.1.m_images = s5.m_images := by rw [hst]
    rw [e1, e2, hv, hi]
    exact ⟨rfl, Nat.mod_lt _ (by norm_num)⟩
  | destroy =>
    simp only [ManagerCall.apply, Option.some.injEq] at happly
    rw [← happly]
    obtain ⟨hi, hv⟩ := destroy_fields st.1 st.2
    rw [hi, hv]
    exact ⟨rfl, by norm_num⟩

theorem run_calls_preserves_counts (MAX_FRAMES_IN_FLIGHT : Nat) (calls : List ManagerCall) :
    ∀ (st st1 : SwapchainManager × VkDevice),
      st.1.m_views.length = st.1.m_images.length ∧ st.1.m_images.length < 2 ^ 32 →
      run_calls MAX_FRAMES_IN_FLIGHT calls st = some st1 →
      st1.1.m_views.length = st1.1.m_images.length ∧ st1.1.m_images.length < 2 ^ 32 := by
  induction calls with
  | nil =>
    intro st st1 hinv hrun
    simp only [run_calls, Option.some.injEq] at hrun
    rw [← hrun]
    exact hinv
  | cons call calls ih =>
    intro st st1 _ hrun
    simp only [run_calls] at hrun
    split at hrun
    · exact absurd hrun (by simp)
    · rename_i st2 happly
      exact ih st2 st1 (apply_preserves_counts MAX_FRAMES_IN_FLIGHT call st st2 happly) hrun

/-- C10: in every state reached from a freshly constructed manager by a
sequence of `init` and `destroy` calls, whatever the driver answers, the
stored images and the stored views are equally many, `size()` passes its
assertion and returns that count, `size()` after a further `destroy` returns 0,
and the call of `size()` inside a further `init` passes its assertion too. -/
theorem size_invariant (MAX_FRAMES_IN_FLIGHT : Nat) (calls : List ManagerCall)
    (dev0 : VkDevice) (st : SwapchainManager × VkDevice)
    (hrun : run_calls MAX_FRAMES_IN_FLIGHT calls (SwapchainManager.fresh, dev0) = some st) :
    st.1.m_images.length = st.1.m_views.length ∧
    st.1.size = some st.1.m_images.length ∧
    (st.1.destroy st.2).1.size = some 0 ∧
    (∀ (w h : Nat) (indices : QueueFamilyIndices) (surface : Nat) (reply : DriverReply)
      (s5 : SwapchainManager) (dev3 : VkDevice),
      st.1.init_swapchain w h indices surface reply st.2 = some (s5, dev3) →
      s5.size = some s5.m_images.length) := by
  have hfresh : (SwapchainManager.fresh, dev0).1.m_views.length
      = (SwapchainManager.fresh, dev0).1.m_images.length ∧
      (SwapchainManager.fresh, dev0).1.m_images.length < 2 ^ 32 :=
    ⟨rfl, by simp [SwapchainManager.fresh]⟩
  obtain ⟨hv, hlt⟩ := run_calls_preserves_counts MAX_FRAMES_IN_FLIGHT calls _ st hfresh hrun
  refine ⟨hv.symm, size_of_counts st.1 hv hlt, ?_, ?_⟩
  · obtain ⟨hi, hvs⟩ := destroy_fields st.1 st.2
    have h0 := size_of_counts (st.1.destroy st.2).1 (by rw [hi, hvs]; rfl)
      (by rw [hi]; norm_num)
    rw [h0, hi]
    rfl
  · intro w h indices surface reply s5 dev3 hs
    obtain ⟨hv5, hi5⟩ := init_swapchain_counts st.1 w h indices surface reply st.2 s5 dev3 hs
    exact size_of_counts s5 hv5 (by rw [hi5]; exact Nat.mod_lt _ (by norm_num))

theorem size_invariant_witness :
    ∃ st, run_calls 2
        [ManagerCall.init 800 600 ⟨0, 0⟩ 7 reply_identity,
         ManagerCall.init 800 600 ⟨0, 0⟩ 7 reply_rotate_90]
        (SwapchainManager.fresh, ⟨0, []⟩) = some st ∧
      st.1.m_images.length = 3 ∧
      st.1.size = some st.1.m_images.length ∧
      (st.1.destroy st.2).1.size = some 0 :=
  ⟨_, rfl, rfl,
    (size_invariant 2
      [ManagerCall.init 800 600 ⟨0, 0⟩ 7 reply_identity,
       ManagerCall.init 800 600 ⟨0, 0⟩ 7 reply_rotate_90]
      ⟨0, []⟩ _ rfl).2.1,
    (size_invariant 2
      [ManagerCall.init 800 600 ⟨0, 0⟩ 7 reply_identity,
       ManagerCall.init 800 600 ⟨0, 0⟩ 7 reply_rotate_90]
      ⟨0, []⟩ _ rfl).2.2.1⟩

/-! ## SwapchainSpec: theorems -/

theorem operator_eq_iff (a b : SwapchainSpec) :
    a.operator_eq b = true ↔
      a.m_count = b.m_count ∧ a.m_image_format = b.m_image_format ∧ a.m_extent = b.m_extent := by
  unfold SwapchainSpec.operator_eq
  split_ifs with h1 h2 h3
  · simp [h1]
  · simp [h2]
  · simp [h3]
  · simp only [ne_eq, not_not] at h1 h2 h3
    simp [h1, h2, h3]

/-- C11: the spec populated by `set(c1, f1, e1)` compares equal to the spec
populated by `set(c2, f2, e2)`, whatever the two specs held before, exactly
when the counts are equal, the formats are equal and the extents have equal
width and equal height; and `operator==` is reflexive, symmetric and
transitive. -/
theorem swapchain_spec_eq_structural (s1 s2 : SwapchainSpec) (c1 f1 c2 f2 : Nat)
    (e1 e2 : VkExtent2D) :
    ((s1.set c1 f1 e1).operator_eq (s2.set c2 f2 e2) = true ↔
      c1 = c2 ∧ f1 = f2 ∧ e1.width = e2.width ∧ e1.height = e2.height) ∧
    (∀ a : SwapchainSpec, a.operator_eq a = true) ∧
    (∀ a b : SwapchainSpec, a.operator_eq b = true → b.operator_eq a = true) ∧
    (∀ a b c : SwapchainSpec, a.operator_eq b = true → b.operator_eq c = true →
      a.operator_eq c = true) := by
  refine ⟨?_, ?_, ?_, ?_⟩
  · rw [operator_eq_iff]
    simp [SwapchainSpec.set]
  · intro a
    rw [operator_eq_iff]
    exact ⟨rfl, rfl, rfl⟩
  · intro a b h
    rw [operator_eq_iff] at h ⊢
    exact ⟨h.1.symm, h.2.1.symm, h.2.2.symm⟩
  · intro a b c h1 h2
    rw [operator_eq_iff] at h1 h2 ⊢
    exact ⟨h1.1.trans h2.1, h1.2.1.trans h2.2.1, h1.2.2.trans h2.2.2⟩

/-! ## The record of device calls only grows -/

theorem create_calls (dev : VkDevice) (call : Nat → DeviceCall) :
    (dev.create call).2.calls = dev.calls ++ [call (dev.create call).1] := rfl

theorem create_mem (dev : VkDevice) (call : Nat → DeviceCall) :
    call (dev.create call).1 ∈ (dev.create call).2.calls := by
  rw [create_calls]
  exact List.mem_append_right _ (List.mem_singleton_self _)

theorem semaphore_init_grows (x : Semaphore) (dev : VkDevice) :
    dev.calls <+: (x.init dev).2.calls := by
  simp [Semaphore.init, VkDevice.create]

theorem semaphore_destory_grows (x : Semaphore) (dev : VkDevice) :
    dev.calls <+: (x.destory dev).2.calls := by
  unfold Semaphore.destory
  split_ifs <;> simp [VkDevice.record]

theorem fence_init_grows (x : Fence) (dev : VkDevice) :
    dev.calls <+: (x.init dev).2.calls := by
  simp [Fence.init, VkDevice.create]

theorem fence_destory_grows (x : Fence) (dev : VkDevice) :
    dev.calls <+: (x.destory dev).2.calls := by
  unfold Fence.destory
  split_ifs <;> simp [VkDevice.record]

theorem image_view_destroy_grows (x : ImageView) (dev : VkDevice) :
    dev.calls <+: (x.destroy dev).2.calls := by
  unfold ImageView.destroy
  split_ifs <;> simp [VkDevice.record]

theorem for_each_grows {α : Type} (f : α → VkDevice → α × VkDevice)
    (hf : ∀ x dev, dev.calls <+: (f x dev).2.calls) (xs : List α) :
    ∀ dev : VkDevice, dev.calls <+: (for_each f xs dev).2.calls := by
  induction xs with
  | nil => intro dev; exact List.prefix_refl _
  | cons x xs ih =>
    intro dev
    simp only [for_each]
    exact (hf x dev).trans (ih _)

theorem sync_destroy_grows (self : SwapchainSyncManager) (dev : VkDevice) :
    dev.calls <+: (self.destroy dev).2.calls := by
  simp only [SwapchainSyncManager.destroy]
  exact ((for_each_grows _ semaphore_destory_grows _ _).trans
    (for_each_grows _ semaphore_destory_grows _ _)).trans
    (for_each_grows _ fence_destory_grows _ _)

theorem sync_init_grows (MAX_FRAMES_IN_FLIGHT : Nat) (self : SwapchainSyncManager) (n : Nat)
    (dev : VkDevice) : dev.calls <+: (self.init MAX_FRAMES_IN_FLIGHT n dev).2.calls := by
  simp only [SwapchainSyncManager.init]
  exact (((sync_destroy_grows self dev).trans
    (for_each_grows _ semaphore_init_grows _ _)).trans
    (for_each_grows _ semaphore_init_grows _ _)).trans
    (for_each_grows _ fence_init_grows _ _)

theorem init_views_grows (reply : DriverReply) (format : Nat) (images : List Nat) :
    ∀ (i : Nat) (views : List ImageView) (dev : VkDevice) (views1 : List ImageView)
      (dev1 : VkDevice),
      init_views reply format i images views dev = some (views1, dev1) →
      dev.calls <+: dev1.calls := by
  induction images with
  | nil =>
    intro i views dev views1 dev1 h
    simp only [init_views, Option.some.injEq, Prod.mk.injEq] at h
    rw [h.2]
  | cons image images ih =>
    intro i views dev views1 dev1 h
    cases views with
    | nil => simp [init_views] at h
    | cons view views =>
      simp only [init_views] at h
      split at h
      · exact absurd h (by simp)
      · rename_i v1 d1 hv
        split at h
        · exact absurd h (by simp)
        · rename_i vs d2 heq
          simp only [Option.some.injEq, Prod.mk.injEq] at h
          have hstep : dev.calls <+: d1.calls := by
            unfold ImageView.init at hv
            split_ifs at hv
            · simp only [Prod.mk.injEq] at hv
              rw [← hv.2.2]
              simp [VkDevice.create]
            · simp at hv
          rw [← h.2]
          exact hstep.trans (ih _ _ _ _ _ heq)

/-- The create call a returning `init_swapchain` has made. -/
theorem init_swapchain_create_call (self : SwapchainManager) (w h : Nat)
    (indices : QueueFamilyIndices) (surface : Nat) (reply : DriverReply) (dev : VkDevice)
    (s5 : SwapchainManager) (dev3 : VkDevice)
    (hinit : self.init_swapchain w h indices surface reply dev = some (s5, dev3)) :
    ∃ info : VkSwapchainCreateInfoKHR,
      DeviceCall.createSwapchain info s5.m_swapChain ∈ dev3.calls ∧
      info.imageExtent = get_identity_screen_resoultion reply.support.m_capabilities ∧
      info.oldSwapchain = self.m_swapChain := by
  unfold SwapchainManager.init_swapchain at hinit
  simp only at hinit
  split at hinit
  · exact absurd hinit (by simp)
  · rename_i fmt hfmt
    split at hinit
    · exact absurd hinit (by simp)
    · split at hinit
      · exact absurd hinit (by simp)
      · rename_i views d2 hviews
        split at hinit
        · exact absurd hinit (by simp)
        · rename_i s5a hs5
          simp only [Option.some.injEq, Prod.mk.injEq] at hinit
          obtain ⟨_, _, _, _, _, hsc, _⟩ := set_transform_values_eq_some _ _ hs5
          have hpre := init_views_grows _ _ _ _ _ _ _ _ hviews
          rw [hinit.2] at hpre
          rw [← hinit.1, hsc]
          exact ⟨_, hpre.subset (create_mem _ (DeviceCall.createSwapchain _)), rfl, rfl⟩

/-- A returning `init`, with the device it leaves. -/
theorem init_eq_some_device (MAX_FRAMES_IN_FLIGHT : Nat) (self : SwapchainManager) (w h : Nat)
    (indices : QueueFamilyIndices) (surface : Nat) (reply : DriverReply) (dev : VkDevice)
    (st : SwapchainManager × VkDevice)
    (hinit : self.init MAX_FRAMES_IN_FLIGHT w h indices surface reply dev = some st) :
    ∃ (s5 : SwapchainManager) (dev3 : VkDevice),
      self.init_swapchain w h indices surface reply dev = some (s5, dev3) ∧
      st.1.m_swapChain = s5.m_swapChain ∧
      st.1.m_identity_extent = s5.m_identity_extent ∧
      st.1.m_image_format = s5.m_image_format ∧
      dev3.calls <+: st.2.calls := by
  unfold SwapchainManager.init at hinit
  split at hinit
  · exact absurd hinit (by simp)
  · rename_i s5 dev3 hs
    split at hinit
    · exact absurd hinit (by simp)
    · rename_i n hn
      simp only [Option.some.injEq] at hinit
      refine ⟨s5, dev3, hs, ?_, ?_, ?_, ?_⟩
      · rw [← hinit]
      · rw [← hinit]
      · rw [← hinit]
      · rw [← hinit]
        exact sync_init_grows MAX_FRAMES_IN_FLIGHT s5.m_sync_man n dev3

/-! ## Format classification -/

/-- C14 (amended): after a returning `init` the stored image format is the
format `choose_surface_format` chose (the preferred pair when it is listed,
else the first listed entry); `is_format_srgb` returns true for
`VK_FORMAT_B8G8R8A8_SRGB`, in particular whenever the preferred pair is listed,
false for `VK_FORMAT_R8G8B8A8_UNORM`, and reaches its abort for every other
stored format. -/
theorem init_format_classification (MAX_FRAMES_IN_FLIGHT : Nat) (self : SwapchainManager)
    (w h : Nat) (indices : QueueFamilyIndices) (surface : Nat) (reply : DriverReply)
    (dev : VkDevice) (st : SwapchainManager × VkDevice)
    (hinit : self.init MAX_FRAMES_IN_FLIGHT w h indices surface reply dev = some st) :
    (∃ f : VkSurfaceFormatKHR,
      choose_surface_format reply.support.m_formats = some f ∧ st.1.format = f.format) ∧
    (preferred_format ∈ reply.support.m_formats → st.1.is_format_srgb = some true) ∧
    (st.1.format = VK_FORMAT_B8G8R8A8_SRGB → st.1.is_format_srgb = some true) ∧
    (st.1.format = VK_FORMAT_R8G8B8A8_UNORM → st.1.is_format_srgb = some false) ∧
    (st.1.format ≠ VK_FORMAT_B8G8R8A8_SRGB → st.1.format ≠ VK_FORMAT_R8G8B8A8_UNORM →
      st.1.is_format_srgb = none) := by
  obtain ⟨s5, dev3, hs, _, _, hfmt, _⟩ := init_eq_some_device MAX_FRAMES_IN_FLIGHT self w h
    indices surface reply dev st hinit
  obtain ⟨s4, hs5, _, _, _, _, _, hchoose⟩ := init_swapchain_eq_some self w h indices surface
    reply dev s5 dev3 hs
  obtain ⟨_, _, _, _, _, _, hf45, _⟩ := set_transform_values_eq_some s4 s5 hs5
  have hstored : st.1.format = s4.m_image_format := by
    unfold SwapchainManager.format
    rw [hfmt, hf45]
  have hsrgb : st.1.format = VK_FORMAT_B8G8R8A8_SRGB → st.1.is_format_srgb = some true := by
    intro hf
    unfold SwapchainManager.is_format_srgb
    rw [hf]
    rfl
  refine ⟨⟨_, hchoose, hstored⟩, ?_, hsrgb, ?_, ?_⟩
  · intro hmem
    apply hsrgb
    have hp : choose_surface_format reply.support.m_formats = some preferred_format := by
      simp [choose_surface_format, find_preferred_of_mem _ hmem]
    rw [hp] at hchoose
    simp only [Option.some.injEq] at hchoose
    rw [hstored]
    exact (congrArg VkSurfaceFormatKHR.format hchoose).symm
  · intro hf
    unfold SwapchainManager.is_format_srgb
    rw [hf]
    rfl
  · intro h1 h2
    unfold SwapchainManager.is_format_srgb
    rw [if_neg h2, if_neg h1]

theorem init_format_classification_witness :
    ∃ st, SwapchainManager.fresh.init 2 800 600 ⟨0, 0⟩ 7 reply_rotate_90 ⟨0, []⟩ = some st ∧
      st.1.is_format_srgb = some true :=
  ⟨_, rfl,
    (init_format_classification 2 SwapchainManager.fresh 800 600 ⟨0, 0⟩ 7 reply_rotate_90
      ⟨0, []⟩ _ rfl).2.1 (by decide)⟩

/-- C14, as stated, fails: on a surface whose only supported format is
`VK_FORMAT_B8G8R8A8_UNORM` the list is non-empty, `choose_surface_format`
chooses that format, `init` returns and stores it, and `is_format_srgb` on the
initialised manager reaches its abort. -/
theorem init_bgra_unorm_counterexample :
    reply_bgra_unorm.support.m_formats ≠ [] ∧
    choose_surface_format reply_bgra_unorm.support.m_formats
      = some ⟨VK_FORMAT_B8G8R8A8_UNORM, VK_COLOR_SPACE_SRGB_NONLINEAR_KHR⟩ ∧
    VK_FORMAT_B8G8R8A8_UNORM ≠ VK_FORMAT_B8G8R8A8_SRGB ∧
    VK_FORMAT_B8G8R8A8_UNORM ≠ VK_FORMAT_R8G8B8A8_UNORM ∧
    Option.map (fun st => (st.1.m_image_format, st.1.is_format_srgb))
      (SwapchainManager.fresh.init 2 800 600 ⟨0, 0⟩ 7 reply_bgra_unorm ⟨0, []⟩)
        = some (VK_FORMAT_B8G8R8A8_UNORM, none) :=
  ⟨by decide, rfl, by decide, by decide, rfl⟩

/-! ## Swapchain lifetime -/

/-- C15: over the calls init; init; destroy on a fresh manager the device is
asked to create two swapchains, with handles 1 and 10; the second create call
carries the first handle as its `oldSwapchain` hint; and only the second
swapchain is ever destroyed, so the first one is never destroyed. -/
theorem init_init_destroy_swapchains :
    Option.map
      (fun st => (swapchains_created st.2.calls, old_swapchain_hints st.2.calls,
        swapchains_destroyed st.2.calls, st.1.m_swapChain))
      (run_calls 2
        [ManagerCall.init 800 600 ⟨0, 0⟩ 7 reply_identity,
         ManagerCall.init 800 600 ⟨0, 0⟩ 7 reply_rotate_90,
         ManagerCall.destroy]
        (SwapchainManager.fresh, ⟨0, []⟩))
      = some ([1, 10], [VK_NULL_HANDLE, 1], [10], VK_NULL_HANDLE) ∧
    1 ∉ [10] :=
  ⟨rfl, by decide⟩

/-! ## Extent stored by init -/

/-- C16 (amended): the image extent a returning `init` stores and passes to
swapchain creation is `get_identity_screen_resoultion` of the reported
capabilities; the desired width and height do not enter it (the same result is
returned for every desired size); for a surface with identity transform it
equals the reported current extent. -/
theorem init_extent (MAX_FRAMES_IN_FLIGHT : Nat) (self : SwapchainManager)
    (w h : Nat) (indices : QueueFamilyIndices) (surface : Nat) (reply : DriverReply)
    (dev : VkDevice) (st : SwapchainManager × VkDevice)
    (hinit : self.init MAX_FRAMES_IN_FLIGHT w h indices surface reply dev = some st) :
    st.1.m_identity_extent = get_identity_screen_resoultion reply.support.m_capabilities ∧
    (∃ info : VkSwapchainCreateInfoKHR,
      DeviceCall.createSwapchain info st.1.m_swapChain ∈ st.2.calls ∧
      info.imageExtent = st.1.m_identity_extent) ∧
    (∀ w1 h1 : Nat,
      self.init MAX_FRAMES_IN_FLIGHT w1 h1 indices surface reply dev = some st) ∧
    (reply.support.m_capabilities.currentTransform = VK_SURFACE_TRANSFORM_IDENTITY_BIT_KHR →
      st.1.m_identity_extent = reply.support.m_capabilities.currentExtent) := by
  obtain ⟨s5, dev3, hs, hsc, hext, _, hpre⟩ := init_eq_some_device MAX_FRAMES_IN_FLIGHT self w h
    indices surface reply dev st hinit
  obtain ⟨hid, _, _⟩ := init_swapchain_ratio self w h indices surface reply dev s5 dev3 hs
  obtain ⟨info, hmem, hie, _⟩ := init_swapchain_create_call self w h indices surface reply dev
    s5 dev3 hs
  have hstored : st.1.m_identity_extent
      = get_identity_screen_resoultion reply.support.m_capabilities := by
    rw [hext, hid]
  refine ⟨hstored, ⟨info, ?_, ?_⟩, ?_, ?_⟩
  · rw [hsc]
    exact hpre.subset hmem
  · rw [hie, hstored]
  · intro w1 h1
    exact hinit
  · intro ht
    rw [hstored]
    exact (identity_extent_cases _).1 (Or.inl ht)

theorem init_extent_witness :
    ∃ st, SwapchainManager.fresh.init 2 5000 5000 ⟨0, 0⟩ 7 reply_identity ⟨0, []⟩ = some st ∧
      st.1.m_identity_extent = ⟨800, 600⟩ :=
  ⟨_, rfl,
    (init_extent 2 SwapchainManager.fresh 5000 5000 ⟨0, 0⟩ 7 reply_identity ⟨0, []⟩ _ rfl).1⟩

/-- C16, as stated, fails: on a surface that reports the flexible-extent
sentinel with bounds (64, 64) and (1920, 1080), `init` called with the desired
size (5000, 5000) stores the extent (4294967295, 4294967295), not the clamped
desired size (1920, 1080) that `choose_extent` gives. -/
theorem init_flexible_extent_counterexample :
    reply_flexible.support.m_capabilities.currentExtent.width = UINT32_MAX ∧
    choose_extent reply_flexible.support.m_capabilities 5000 5000 = ⟨1920, 1080⟩ ∧
    Option.map (fun st => st.1.m_identity_extent)
      (SwapchainManager.fresh.init 2 5000 5000 ⟨0, 0⟩ 7 reply_flexible ⟨0, []⟩)
        = some ⟨4294967295, 4294967295⟩ ∧
    (⟨4294967295, 4294967295⟩ : VkExtent2D) ≠ ⟨1920, 1080⟩ :=
  ⟨rfl, by decide, rfl, by decide⟩

/-! ## Scene: theorems -/

theorem view_each_model_actor_registry {σ : Type}
    (f : cpnt.Model → cpnt.Actor → σ → cpnt.Model × cpnt.Actor × σ)
    (hf : ∀ model actor out, (f model actor out).1 = model ∧ (f model actor out).2.1 = actor)
    (es : List Entity) : ∀ out : σ, (view_each_model_actor f es out).1 = es := by
  induction es with
  | nil => intro out; rfl
  | cons e es ih =>
    intro out
    cases e with
    | mk model actor model_skinned actor_animated =>
      cases model with
      | none => simp [view_each_model_actor, ih]
      | some m =>
        cases actor with
        | none => simp [view_each_model_actor, ih]
        | some a => simp [view_each_model_actor, ih, hf]

theorem view_each_skinned_animated_registry {σ : Type}
    (f : cpnt.ModelSkinned → cpnt.ActorAnimated → σ →
      cpnt.ModelSkinned × cpnt.ActorAnimated × σ)
    (hf : ∀ model actor out, (f model actor out).1 = model ∧ (f model actor out).2.1 = actor)
    (es : List Entity) : ∀ out : σ, (view_each_skinned_animated f es out).1 = es := by
  induction es with
  | nil => intro out; rfl
  | cons e es ih =>
    intro out
    cases e with
    | mk model actor model_skinned actor_animated =>
      cases model_skinned with
      | none => simp [view_each_skinned_animated, ih]
      | some m =>
        cases actor_animated with
        | none => simp [view_each_skinned_animated, ih]
        | some a => simp [view_each_skinned_animated, ih, hf]

theorem push_static_entries (es : List Entity) :
    ∀ out : RenderList,
      (view_each_model_actor push_static_model es out).2.m_static_models
        = out.m_static_models ++ es.filterMap static_entry ∧
      (view_each_model_actor push_static_model es out).2.m_skinned_models
        = out.m_skinned_models := by
  induction es with
  | nil => intro out; simp [view_each_model_actor]
  | cons e es ih =>
    intro out
    cases e with
    | mk model actor model_skinned actor_animated =>
      cases model with
      | none => simp [view_each_model_actor, static_entry, ih]
      | some m =>
        cases actor with
        | none => simp [view_each_model_actor, static_entry, ih]
        | some a => simp [view_each_model_actor, static_entry, ih, push_static_model]

theorem push_skinned_entries (es : List Entity) :
    ∀ out : RenderList,
      (view_each_skinned_animated push_skinned_model es out).2.m_skinned_models
        = out.m_skinned_models ++ es.filterMap skinned_entry ∧
      (view_each_skinned_animated push_skinned_model es out).2.m_static_models
        = out.m_static_models := by
  induction es with
  | nil => intro out; simp [view_each_skinned_animated]
  | cons e es ih =>
    intro out
    cases e with
    | mk model actor model_skinned actor_animated =>
      cases model_skinned with
      | none => simp [view_each_skinned_animated, skinned_entry, ih]
      | some m =>
        cases actor_animated with
        | none => simp [view_each_skinned_animated, skinned_entry, ih]
        | some a => simp [view_each_skinned_animated, skinned_entry, ih, push_skinned_model]

theorem static_entry_isSome (e : Entity) :
    (static_entry e).isSome = (e.model.isSome && e.actor.isSome) := by
  cases e with
  | mk model actor model_skinned actor_animated =>
    cases model <;> cases actor <;> rfl

theorem skinned_entry_isSome (e : Entity) :
    (skinned_entry e).isSome = (e.model_skinned.isSome && e.actor_animated.isSome) := by
  cases e with
  | mk model actor model_skinned actor_animated =>
    cases model_skinned <;> cases actor_animated <;> rfl

theorem length_filterMap_eq_countP {α β : Type} (g : α → Option β) (xs : List α) :
    (xs.filterMap g).length = xs.countP (fun a => (g a).isSome) := by
  induction xs with
  | nil => rfl
  | cons a xs ih =>
    cases hg : g a with
    | none => simp [List.filterMap_cons, hg, ih]
    | some b => simp [List.filterMap_cons, hg, ih]

/-- C12: the static-model list `make_render_list` returns is, entity by
entity in visiting order, the mesh handle and actor list of each entity that
has both a Model and an Actor, one entry each, and nothing for the other
entities; likewise the skinned-model list for ModelSkinned and ActorAnimated;
so the lists are as long as the numbers of such entities, and a scene with one
{Model, Actor} entity and one {ModelSkinned, ActorAnimated} entity yields one
static and one skinned entry with those entities' handles and actors. -/
theorem make_render_list_entries (scene : Scene) (cur_sec : ℝ) :
    (scene.make_render_list cur_sec).1.m_static_models
      = scene.m_registry.filterMap static_entry ∧
    (scene.make_render_list cur_sec).1.m_skinned_models
      = scene.m_registry.filterMap skinned_entry ∧
    (scene.make_render_list cur_sec).1.m_static_models.length
      = scene.m_registry.countP (fun e => e.model.isSome && e.actor.isSome) ∧
    (scene.make_render_list cur_sec).1.m_skinned_models.length
      = scene.m_registry.countP (fun e => e.model_skinned.isSome && e.actor_animated.isSome) ∧
    (∀ (camera : EulerCamera) (m : cpnt.Model) (a : cpnt.Actor) (ms : cpnt.ModelSkinned)
        (aa : cpnt.ActorAnimated),
      ((Scene.mk [{ model := some m, actor := some a },
          { model_skinned := some ms, actor_animated := some aa }] camera).make_render_list
            cur_sec).1.m_static_models = [{ m_model := m.m_model, m_actors := a.m_actors }] ∧
      ((Scene.mk [{ model := some m, actor := some a },
          { model_skinned := some ms, actor_animated := some aa }] camera).make_render_list
            cur_sec).1.m_skinned_models
              = [{ m_model := ms.m_model, m_actors := aa.m_actors }]) := by
  have hstatic : ∀ sc : Scene, (sc.make_render_list cur_sec).1.m_static_models
      = sc.m_registry.filterMap static_entry := by
    intro sc
    simp only [Scene.make_render_list]
    rw [(push_skinned_entries _ _).2, (push_static_entries _ _).1]
    rfl
  have hskinned : ∀ sc : Scene, (sc.make_render_list cur_sec).1.m_skinned_models
      = sc.m_registry.filterMap skinned_entry := by
    intro sc
    simp only [Scene.make_render_list]
    rw [(push_skinned_entries _ _).1, (push_static_entries _ _).2,
      view_each_model_actor_registry push_static_model (fun _ _ _ => ⟨rfl, rfl⟩)]
    rfl
  refine ⟨hstatic scene, hskinned scene, ?_, ?_, ?_⟩
  · rw [hstatic, length_filterMap_eq_countP]
    congr 1
    funext e
    exact static_entry_isSome e
  · rw [hskinned, length_filterMap_eq_countP]
    congr 1
    funext e
    exact skinned_entry_isSome e
  · intro camera m a ms aa
    rw [hstatic, hskinned]
    exact ⟨rfl, rfl⟩

/-- C13: `make_render_list` leaves the scene as it found it: the registry
(the entities, their components, mesh handles and actor lists) and the camera
after the call equal those before the call. -/
theorem make_render_list_read_only (scene : Scene) (cur_sec : ℝ) :
    (scene.make_render_list cur_sec).2 = scene ∧
    (scene.make_render_list cur_sec).2.m_registry = scene.m_registry ∧
    (scene.make_render_list cur_sec).2.m_euler_camera = scene.m_euler_camera := by
  have hreg : (scene.make_render_list cur_sec).2.m_registry = scene.m_registry := by
    simp only [Scene.make_render_list]
    rw [view_each_skinned_animated_registry push_skinned_model (fun _ _ _ => ⟨rfl, rfl⟩),
      view_each_model_actor_registry push_static_model (fun _ _ _ => ⟨rfl, rfl⟩)]
  have hcam : (scene.make_render_list cur_sec).2.m_euler_camera = scene.m_euler_camera := rfl
  refine ⟨?_, hreg, hcam⟩
  cases scene with
  | mk registry camera =>
    have h1 : (Scene.make_render_list ⟨registry, camera⟩ cur_sec).2
        = ⟨(Scene.make_render_list ⟨registry, camera⟩ cur_sec).2.m_registry,
           (Scene.make_render_list ⟨registry, camera⟩ cur_sec).2.m_euler_camera⟩ := rfl
    rw [h1, hreg, hcam]

/-! ## Lights: theorems -/

theorem Vec3.eq_of_components (a b : Vec3) (hx : a.x = b.x) (hy : a.y = b.y) (hz : a.z = b.z) :
    a = b := by
  cases a
  cases b
  simp only [Vec3.mk.injEq]
  exact ⟨hx, hy, hz⟩

theorem glm_dot_self_nonneg (v : Vec3) : 0 ≤ glm_dot v v := by
  unfold glm_dot
  nlinarith [mul_self_nonneg v.x, mul_self_nonneg v.y, mul_self_nonneg v.z]

theorem glm_dot_self_pos (v : Vec3) (hv : v ≠ { x := 0, y := 0, z := 0 }) :
    0 < glm_dot v v := by
  rcases lt_or_eq_of_le (glm_dot_self_nonneg v) with h | h
  · exact h
  · exfalso
    apply hv
    unfold glm_dot at h
    have hx : v.x = 0 := by
      nlinarith [mul_self_nonneg v.x, mul_self_nonneg v.y, mul_self_nonneg v.z]
    have hy : v.y = 0 := by
      nlinarith [mul_self_nonneg v.x, mul_self_nonneg v.y, mul_self_nonneg v.z]
    have hz : v.z = 0 := by
      nlinarith [mul_self_nonneg v.x, mul_self_nonneg v.y, mul_self_nonneg v.z]
    exact Vec3.eq_of_components _ _ hx hy hz

theorem glm_dot_scale (v : Vec3) (s : ℝ) :
    glm_dot (v.scale s) (v.scale s) = s * s * glm_dot v v := by
  simp only [glm_dot, Vec3.scale]
  ring

theorem inv_sq_mul_eq_one (s d : ℝ) (hs : s ≠ 0) (hd : s * s = d) :
    1 / s * (1 / s) * d = 1 := by
  subst hd
  field_simp

/-- The normalised vector has length 1 when the dot product with itself is
positive. -/
theorem glm_normalize_length (v : Vec3) (hpos : 0 < glm_dot v v) :
    glm_length (glm_normalize v) = 1 := by
  unfold glm_length glm_normalize glm_inversesqrt
  rw [glm_dot_scale]
  have hs : 0 < Real.sqrt (glm_dot v v) := Real.sqrt_pos.2 hpos
  have hmul : Real.sqrt (glm_dot v v) * Real.sqrt (glm_dot v v) = glm_dot v v :=
    Real.mul_self_sqrt hpos.le
  have h1 : 1 / Real.sqrt (glm_dot v v) * (1 / Real.sqrt (glm_dot v v)) * glm_dot v v = 1 :=
    inv_sq_mul_eq_one _ _ hs.ne' hmul
  rw [h1, Real.sqrt_one]

/-- C17 (amended): for every non-zero vector v, after `set_direc_to_light(v)`
the stored direction-to-light has Euclidean length exactly 1 and is v scaled by
the positive factor 1 / |v|, so it points along v; and the three-scalar overload
stores the same vector as the vector overload. -/
theorem set_direc_to_light_unit (self : DLight) (v : Vec3)
    (hv : v ≠ { x := 0, y := 0, z := 0 }) :
    glm_length (self.set_direc_to_light v).to_light_direc = 1 ∧
    (self.set_direc_to_light v).to_light_direc = v.scale (1 / glm_length v) ∧
    0 < 1 / glm_length v ∧
    (∀ x y z : ℝ, self.set_direc_to_light_xyz x y z
      = self.set_direc_to_light { x := x, y := y, z := z }) := by
  have hpos := glm_dot_self_pos v hv
  refine ⟨glm_normalize_length v hpos, rfl, ?_, fun _ _ _ => rfl⟩
  unfold glm_length
  exact one_div_pos.2 (Real.sqrt_pos.2 hpos)

theorem set_direc_to_light_unit_witness :
    (({} : DLight).set_direc_to_light { x := 0, y := 10, z := 0 }).to_light_direc
      = { x := 0, y := 1, z := 0 } ∧
    glm_length (({} : DLight).set_direc_to_light { x := 0, y := 10, z := 0 }).to_light_direc
      = 1 := by
  have h := set_direc_to_light_unit {} { x := 0, y := 10, z := 0 }
    (by intro hc; have := congrArg Vec3.y hc; norm_num at this)
  refine ⟨?_, h.1⟩
  rw [h.2.1]
  have hlen : glm_length { x := 0, y := 10, z := 0 } = 10 := by
    unfold glm_length glm_dot
    have h100 : (0 : ℝ) * 0 + 10 * 10 + 0 * 0 = 10 ^ 2 := by norm_num
    simp only [h100]
    exact Real.sqrt_sq (by norm_num)
  rw [hlen]
  apply Vec3.eq_of_components <;> simp [Vec3.scale]

/-- C17, as stated, fails at the zero vector: the vector stored by
`set_direc_to_light((0, 0, 0))` does not have length 1, and no vector that is a
multiple of the zero vector has length 1. -/
theorem set_direc_to_light_zero_counterexample :
    glm_length (({} : DLight).set_direc_to_light { x := 0, y := 0, z := 0 }).to_light_direc
      ≠ 1 ∧
    (∀ (u : Vec3) (c : ℝ), u = ({ x := 0, y := 0, z := 0 } : Vec3).scale c →
      glm_length u ≠ 1) := by
  have hzero : ∀ c : ℝ, glm_length (({ x := 0, y := 0, z := 0 } : Vec3).scale c) ≠ 1 := by
    intro c
    unfold glm_length glm_dot Vec3.scale
    simp
  constructor
  · exact hzero _
  · intro u c hu
    rw [hu]
    exact hzero c

/-! ## Plane: theorems -/

/-- The signed distance of the defining point, for any normal: the stored
normal is normalised while `m_d` is computed from the normal as given. -/
theorem plane_dist_of_point (point normal : Vec3) :
    (Plane.create point normal).calc_signed_dist_to point
      = (glm_inversesqrt (glm_dot normal normal) - 1) * glm_dot normal point := by
  simp only [Plane.create, Plane.calc_signed_dist_to, Plane.coeff, glm_dot4, glm_normalize,
    Vec3.scale, glm_dot]
  ring

/-- With a unit normal the defining point lies on the plane. -/
theorem plane_dist_of_point_unit (point normal : Vec3) (hunit : glm_dot normal normal = 1) :
    (Plane.create point normal).calc_signed_dist_to point = 0 := by
  rw [plane_dist_of_point, hunit]
  simp [glm_inversesqrt]

theorem sqrt_four : Real.sqrt 4 = 2 := by
  have h : (4 : ℝ) = 2 ^ 2 := by norm_num
  rw [h]
  exact Real.sqrt_sq (by norm_num)

/-- C19: for the point (0, 1, 0) and the non-unit normal (0, 2, 0) the plane
built by the constructor has signed distance -1, not 0, to its defining
point: the stored normal is (0, 1, 0) while `m_d` = -2 comes from the normal as
given. -/
theorem plane_point_off_plane :
    (Plane.create { x := 0, y := 1, z := 0 } { x := 0, y := 2, z := 0 }).calc_signed_dist_to
      { x := 0, y := 1, z := 0 } = -1 ∧
    (Plane.create { x := 0, y := 1, z := 0 } { x := 0, y := 2, z := 0 }).m_d = -2 ∧
    (Plane.create { x := 0, y := 1, z := 0 } { x := 0, y := 2, z := 0 }).m_normal.y = 1 := by
  have hdot : glm_dot { x := 0, y := 2, z := 0 } { x := 0, y := 2, z := 0 } = 4 := by
    simp only [glm_dot]
    norm_num
  refine ⟨?_, ?_, ?_⟩
  · rw [plane_dist_of_point, hdot]
    simp only [glm_inversesqrt, sqrt_four, glm_dot]
    norm_num
  · simp only [Plane.create, glm_dot]
    norm_num
  · simp only [Plane.create, glm_normalize, Vec3.scale, hdot, glm_inversesqrt, sqrt_four]
    norm_num

theorem plane_horizontal_at_five :
    Plane.create { x := 0, y := 5, z := 0 } { x := 0, y := 1, z := 0 }
      = { m_normal := { x := 0, y := 1, z := 0 }, m_d := -5 } := by
  have hdot : glm_dot { x := 0, y := 1, z := 0 } { x := 0, y := 1, z := 0 } = 1 := by
    simp only [glm_dot]
    norm_num
  simp only [Plane.create, glm_normalize, hdot, glm_inversesqrt, Real.sqrt_one, Vec3.scale,
    glm_dot]
  norm_num

/-- C20: for the horizontal plane through (0, 5, 0) with the unit normal
(0, 1, 0), the point q = (0, 5, 0) lies on the plane, yet `make_reflect_mat`
takes its first branch and returns the matrix that maps (q, 1) to
(0, -5, 0, 1), which is not (q, 1); and `one_point()` is (0, -5, 0), at
signed distance -10 from the plane. -/
theorem reflect_mat_moves_plane_point (quat_rotation : ℝ → Vec3 → Matrix (Fin 4) (Fin 4) ℝ) :
    glm_dot { x := 0, y := 1, z := 0 } { x := 0, y := 1, z := 0 } = 1 ∧
    (Plane.create { x := 0, y := 5, z := 0 } { x := 0, y := 1, z := 0 }).calc_signed_dist_to
      { x := 0, y := 5, z := 0 } = 0 ∧
    ((Plane.create { x := 0, y := 5, z := 0 } { x := 0, y := 1, z := 0 }).make_reflect_mat
      quat_rotation).mulVec (homogeneous { x := 0, y := 5, z := 0 })
        = homogeneous { x := 0, y := -5, z := 0 } ∧
    homogeneous { x := 0, y := -5, z := 0 } ≠ homogeneous { x := 0, y := 5, z := 0 } ∧
    (Plane.create { x := 0, y := 5, z := 0 } { x := 0, y := 1, z := 0 }).one_point
      = { x := 0, y := -5, z := 0 } ∧
    (Plane.create { x := 0, y := 5, z := 0 } { x := 0, y := 1, z := 0 }).calc_signed_dist_to
      (Plane.create { x := 0, y := 5, z := 0 } { x := 0, y := 1, z := 0 }).one_point = -10 := by
  have hone : ({ m_normal := { x := 0, y := 1, z := 0 }, m_d := -5 } : Plane).one_point
      = { x := 0, y := -5, z := 0 } := by
    simp only [Plane.one_point, Plane.normal, Plane.calc_signed_dist_to, Plane.coeff, glm_dot4,
      Vec3.scale]
    norm_num
  rw [plane_horizontal_at_five]
  refine ⟨?_, ?_, ?_, ?_, hone, ?_⟩
  · simp only [glm_dot]
    norm_num
  · simp only [Plane.calc_signed_dist_to, Plane.coeff, glm_dot4]
    norm_num
  · have hcos : (1 : ℝ) = glm_dot ({ m_normal := { x := 0, y := 1, z := 0 }, m_d := -5 } :
        Plane).normal { x := 0, y := 1, z := 0 } := by
      simp only [Plane.normal, glm_dot]
      norm_num
    simp only [Plane.make_reflect_mat]
    rw [if_pos hcos]
    funext i
    fin_cases i <;>
      simp [make_upside_down_mat, homogeneous, Matrix.mulVec, Matrix.dotProduct,
        Fin.sum_univ_four, Matrix.one_apply]
  · intro hc
    have h1 := congrFun hc 1
    simp [homogeneous] at h1
    norm_num at h1
  · rw [hone]
    simp only [Plane.calc_signed_dist_to, Plane.coeff, glm_dot4]
    norm_num

/-! ## Frame protocol: theorems -/

theorem begin_frame_eq_some (st st1 : FrameSync) (slot image : Nat)
    (h : st.begin_frame slot image = some st1) :
    st.fence_signaled[slot]? = some true ∧
    (st.m_img_in_flight_fences[image]? = some none ∨
      ∃ guard, st.m_img_in_flight_fences[image]? = some (some guard) ∧
        st.fence_signaled[guard]? = some true) ∧
    st1 = { fence_signaled := st.fence_signaled.set slot false
            m_img_in_flight_fences := st.m_img_in_flight_fences.set image (some slot)
            in_flight := (slot, image) :: st.in_flight } := by
  unfold FrameSync.begin_frame at h
  split_ifs at h with h1
  simp only [ne_eq, not_not] at h1
  split at h
  · exact absurd h (by simp)
  · rename_i htable
    simp only [Option.some.injEq] at h
    exact ⟨h1, Or.inl htable, h.symm⟩
  · rename_i guard htable
    split_ifs at h with h2
    simp only [ne_eq, not_not] at h2
    simp only [Option.some.injEq] at h
    exact ⟨h1, Or.inr ⟨guard, htable, h2⟩, h.symm⟩

theorem consistent_init (MAX_FRAMES_IN_FLIGHT N : Nat) :
    (FrameSync.init MAX_FRAMES_IN_FLIGHT N).consistent := by
  constructor
  · intro work hw
    simp [FrameSync.init] at hw
  · simp [FrameSync.init]

theorem getElem?_lt_of_eq_some {α : Type} (l : List α) (i : Nat) (a : α)
    (h : l[i]? = some a) : i < l.length := by
  by_contra hc
  rw [List.getElem?_eq_none (Nat.le_of_not_lt hc)] at h
  exact absurd h (by simp)

theorem consistent_begin_frame (st st1 : FrameSync) (slot image : Nat)
    (hinv : st.consistent) (h : st.begin_frame slot image = some st1) : st1.consistent := by
  obtain ⟨hfence, htable, hst1⟩ := begin_frame_eq_some st st1 slot image h
  obtain ⟨hwork, hnodup⟩ := hinv
  have hslot : slot < st.fence_signaled.length := getElem?_lt_of_eq_some _ _ _ hfence
  have himage : image < st.m_img_in_flight_fences.length := by
    rcases htable with ht | ⟨g, ht, _⟩
    · exact getElem?_lt_of_eq_some _ _ _ ht
    · exact getElem?_lt_of_eq_some _ _ _ ht
  have hfree : ∀ work ∈ st.in_flight, work.2 ≠ image := by
    intro work hw himg
    obtain ⟨hf, ht⟩ := hwork work hw
    rw [himg] at ht
    rcases htable with ht2 | ⟨g, ht2, hg⟩
    · rw [ht2] at ht
      simp at ht
    · rw [ht2] at ht
      simp only [Option.some.injEq] at ht
      rw [ht, hf] at hg
      simp at hg
  subst hst1
  constructor
  · intro work hw
    simp only [List.mem_cons] at hw
    rcases hw with hw | hw
    · subst hw
      exact ⟨List.getElem?_set_self hslot, List.getElem?_set_self himage⟩
    · obtain ⟨hf, ht⟩ := hwork work hw
      constructor
      · simp only
        by_cases h1 : slot = work.1
        · rw [← h1]
          exact List.getElem?_set_self hslot
        · rw [List.getElem?_set_ne h1]
          exact hf
      · simp only
        rw [List.getElem?_set_ne (fun e => hfree work hw e.symm)]
        exact ht
  · simp only [List.map_cons, List.nodup_cons]
    refine ⟨?_, hnodup⟩
    intro hmem
    obtain ⟨work, hw, himg⟩ := List.mem_map.1 hmem
    exact hfree work hw himg

theorem consistent_gpu_done (st : FrameSync) (slot : Nat) (hinv : st.consistent) :
    (st.gpu_done slot).consistent := by
  obtain ⟨hwork, hnodup⟩ := hinv
  constructor
  · intro work hw
    simp only [FrameSync.gpu_done, List.mem_filter, decide_eq_true_eq] at hw
    obtain ⟨hf, ht⟩ := hwork work hw.1
    constructor
    · simp only [FrameSync.gpu_done]
      rw [List.getElem?_set_ne (fun e => hw.2 e.symm)]
      exact hf
    · exact ht
  · simp only [FrameSync.gpu_done]
    exact hnodup.sublist ((List.filter_sublist _).map Prod.snd)

theorem consistent_run (events : List FrameEvent) :
    ∀ st st1 : FrameSync, st.consistent → FrameSync.run events st = some st1 →
      st1.consistent := by
  induction events with
  | nil =>
    intro st st1 hinv hrun
    simp only [FrameSync.run, Option.some.injEq] at hrun
    rw [← hrun]
    exact hinv
  | cons ev evs ih =>
    intro st st1 hinv hrun
    simp only [FrameSync.run] at hrun
    split at hrun
    · exact absurd hrun (by simp)
    · rename_i st2 hstep
      refine ih st2 st1 ?_ hrun
      cases ev with
      | frame slot image => exact consistent_begin_frame st st2 slot image hinv hstep
      | gpu_done slot =>
        simp only [FrameSync.step, Option.some.injEq] at hstep
        rw [← hstep]
        exact consistent_gpu_done st slot hinv

/-- C18: in every state the frame protocol reaches from its initial state, no
two frames in flight write the same image; while a frame of slot a that
acquired image i is in flight (its fence not yet signaled), a frame of any slot
b that acquires the same image i cannot proceed; and once the GPU work of slot
a has completed and signaled the fence recorded for image i, that frame
proceeds as soon as the fence of its own slot b is signaled. -/
theorem frame_protocol_exclusion (MAX_FRAMES_IN_FLIGHT N : Nat) (events : List FrameEvent)
    (st : FrameSync)
    (hrun : FrameSync.run events (FrameSync.init MAX_FRAMES_IN_FLIGHT N) = some st) :
    (st.in_flight.map Prod.snd).Nodup ∧
    (∀ a b i : Nat, (a, i) ∈ st.in_flight →
      st.m_img_in_flight_fences[i]? = some (some a) ∧
      st.begin_frame b i = none ∧
      ((st.gpu_done a).fence_signaled[b]? = some true →
        ((st.gpu_done a).begin_frame b i).isSome = true)) := by
  have hinv := consistent_run events _ st (consistent_init MAX_FRAMES_IN_FLIGHT N) hrun
  refine ⟨hinv.2, ?_⟩
  intro a b i hmem
  obtain ⟨hf, ht⟩ := hinv.1 (a, i) hmem
  simp only at hf ht
  refine ⟨ht, ?_, ?_⟩
  · unfold FrameSync.begin_frame
    split_ifs with h1
    · rfl
    · rw [ht]
      simp only
      rw [if_pos (by rw [hf]; simp)]
  · intro hb
    have ha : (st.gpu_done a).fence_signaled[a]? = some true := by
      simp only [FrameSync.gpu_done]
      exact List.getElem?_set_self (getElem?_lt_of_eq_some _ _ _ hf)
    have ht2 : (st.gpu_done a).m_img_in_flight_fences[i]? = some (some a) := ht
    unfold FrameSync.begin_frame
    rw [if_neg (by rw [hb]; simp), ht2]
    simp only
    rw [if_neg (by rw [ha]; simp)]
    rfl

theorem frame_protocol_exclusion_witness :
    ∃ st, FrameSync.run [FrameEvent.frame 0 1] (FrameSync.init 2 3) = some st ∧
      (0, 1) ∈ st.in_flight ∧
      st.begin_frame 1 1 = none ∧
      ((st.gpu_done 0).begin_frame 1 1).isSome = true :=
  ⟨_, rfl, by decide,
    ((frame_protocol_exclusion 2 3 [FrameEvent.frame 0 1] _ rfl).2 0 1 1 (by decide)).2.1,
    ((frame_protocol_exclusion 2 3 [FrameEvent.frame 0 1] _ rfl).2 0 1 1 (by decide)).2.2
      (by decide)⟩

/-! ## QueueFamilyIndices: theorems -/

theorem is_complete_iff (NULL_VAL : Nat) (self : QueueFamilyIndices) :
    self.is_complete NULL_VAL = true ↔
      self.m_graphics_family ≠ NULL_VAL ∧ self.m_present_family ≠ NULL_VAL := by
  unfold QueueFamilyIndices.is_complete
  split_ifs with h1 h2
  · simp [h1]
  · simp [h2]
  · simp only [true_iff]
    exact ⟨fun e => h1 e.symm, fun e => h2 e.symm⟩

theorem visit_graphics (self : QueueFamilyIndices) (i : Nat) (f : QueueFamily) :
    (self.visit i f).m_graphics_family
      = if f.queueFlags &&& VK_QUEUE_GRAPHICS_BIT ≠ 0 then i else self.m_graphics_family := by
  unfold QueueFamilyIndices.visit
  split_ifs <;> rfl

theorem visit_present (self : QueueFamilyIndices) (i : Nat) (f : QueueFamily) :
    (self.visit i f).m_present_family
      = if f.present_support = true then i else self.m_present_family := by
  unfold QueueFamilyIndices.visit
  split_ifs <;> rfl

/-- What the loop of `init` leaves, from any index and any indices it starts
with: a family index is set afterwards exactly when it was set before or one of
the remaining families qualifies, and an index the loop changed designates a
qualifying family. -/
theorem init_loop_spec (NULL_VAL : Nat) (rest : List QueueFamily) :
    ∀ (i : Nat) (self : QueueFamilyIndices),
      (∀ j, i ≤ j → j < i + rest.length → j ≠ NULL_VAL) →
      ((QueueFamilyIndices.init_loop NULL_VAL i rest self).m_graphics_family ≠ NULL_VAL ↔
        self.m_graphics_family ≠ NULL_VAL ∨
          ∃ f ∈ rest, f.queueFlags &&& VK_QUEUE_GRAPHICS_BIT ≠ 0) ∧
      ((QueueFamilyIndices.init_loop NULL_VAL i rest self).m_present_family ≠ NULL_VAL ↔
        self.m_present_family ≠ NULL_VAL ∨ ∃ f ∈ rest, f.present_support = true) ∧
      ((QueueFamilyIndices.init_loop NULL_VAL i rest self).m_graphics_family
          = self.m_graphics_family ∨
        (i ≤ (QueueFamilyIndices.init_loop NULL_VAL i rest self).m_graphics_family ∧
          ∃ f, rest[(QueueFamilyIndices.init_loop NULL_VAL i rest self).m_graphics_family - i]?
            = some f ∧ f.queueFlags &&& VK_QUEUE_GRAPHICS_BIT ≠ 0)) ∧
      ((QueueFamilyIndices.init_loop NULL_VAL i rest self).m_present_family
          = self.m_present_family ∨
        (i ≤ (QueueFamilyIndices.init_loop NULL_VAL i rest self).m_present_family ∧
          ∃ f, rest[(QueueFamilyIndices.init_loop NULL_VAL i rest self).m_present_family - i]?
            = some f ∧ f.present_support = true)) := by
  induction rest with
  | nil =>
    intro i self _
    simp [QueueFamilyIndices.init_loop]
  | cons head tail ih =>
    intro i self hnull
    have hi : i ≠ NULL_VAL := hnull i (le_refl i) (by simp)
    have hvg := visit_graphics self i head
    have hvp := visit_present self i head
    by_cases hc : (self.visit i head).is_complete NULL_VAL = true
    · -- the loop stops here
      have hr : QueueFamilyIndices.init_loop NULL_VAL i (head :: tail) self
          = self.visit i head := by
        simp only [QueueFamilyIndices.init_loop, if_pos hc]
      rw [hr]
      obtain ⟨hg, hp⟩ := (is_complete_iff NULL_VAL _).1 hc
      refine ⟨⟨fun _ => ?_, fun _ => hg⟩, ⟨fun _ => ?_, fun _ => hp⟩, ?_, ?_⟩
      · by_cases hG : head.queueFlags &&& VK_QUEUE_GRAPHICS_BIT ≠ 0
        · exact Or.inr ⟨head, List.mem_cons_self _ _, hG⟩
        · rw [hvg, if_neg hG] at hg
          exact Or.inl hg
      · by_cases hP : head.present_support = true
        · exact Or.inr ⟨head, List.mem_cons_self _ _, hP⟩
        · rw [hvp, if_neg hP] at hp
          exact Or.inl hp
      · by_cases hG : head.queueFlags &&& VK_QUEUE_GRAPHICS_BIT ≠ 0
        · right
          rw [hvg, if_pos hG]
          exact ⟨le_refl i, head, by simp, hG⟩
        · left
          rw [hvg, if_neg hG]
      · by_cases hP : head.present_support = true
        · right
          rw [hvp, if_pos hP]
          exact ⟨le_refl i, head, by simp, hP⟩
        · left
          rw [hvp, if_neg hP]
    · -- the loop goes on with the next index
      have hr : QueueFamilyIndices.init_loop NULL_VAL i (head :: tail) self
          = QueueFamilyIndices.init_loop NULL_VAL (i + 1) tail (self.visit i head) := by
        simp only [QueueFamilyIndices.init_loop, if_neg hc]
      rw [hr]
      have hnull1 : ∀ j, i + 1 ≤ j → j < i + 1 + tail.length → j ≠ NULL_VAL := by
        intro j h1 h2
        exact hnull j (by omega) (by simp only [List.length_cons]; omega)
      obtain ⟨ihg, ihp, ihgi, ihpi⟩ := ih (i + 1) (self.visit i head) hnull1
      refine ⟨?_, ?_, ?_, ?_⟩
      · rw [ihg, hvg]
        by_cases hG : head.queueFlags &&& VK_QUEUE_GRAPHICS_BIT ≠ 0
        · rw [if_pos hG]
          constructor
          · intro _
            exact Or.inr ⟨head, List.mem_cons_self _ _, hG⟩
          · intro _
            exact Or.inl hi
        · rw [if_neg hG]
          constructor
          · rintro (h | ⟨f, hf, hfG⟩)
            · exact Or.inl h
            · exact Or.inr ⟨f, List.mem_cons_of_mem _ hf, hfG⟩
          · rintro (h | ⟨f, hf, hfG⟩)
            · exact Or.inl h
            · rcases List.mem_cons.1 hf with e | e
              · exact absurd (e ▸ hfG) hG
              · exact Or.inr ⟨f, e, hfG⟩
      · rw [ihp, hvp]
        by_cases hP : head.present_support = true
        · rw [if_pos hP]
          constructor
          · intro _
            exact Or.inr ⟨head, List.mem_cons_self _ _, hP⟩
          · intro _
            exact Or.inl hi
        · rw [if_neg hP]
          constructor
          · rintro (h | ⟨f, hf, hfP⟩)
            · exact Or.inl h
            · exact Or.inr ⟨f, List.mem_cons_of_mem _ hf, hfP⟩
          · rintro (h | ⟨f, hf, hfP⟩)
            · exact Or.inl h
            · rcases List.mem_cons.1 hf with e | e
              · exact absurd (e ▸ hfP) hP
              · exact Or.inr ⟨f, e, hfP⟩
      · rcases ihgi with h | ⟨hle, f, hf, hfG⟩
        · rw [h, hvg]
          by_cases hG : head.queueFlags &&& VK_QUEUE_GRAPHICS_BIT ≠ 0
          · right
            rw [if_pos hG]
            exact ⟨le_refl i, head, by simp, hG⟩
          · left
            rw [if_neg hG]
        · right
          refine ⟨by omega, f, ?_, hfG⟩
          have hidx : (QueueFamilyIndices.init_loop NULL_VAL (i + 1) tail
              (self.visit i head)).m_graphics_family - i
              = ((QueueFamilyIndices.init_loop NULL_VAL (i + 1) tail
                (self.visit i head)).m_graphics_family - (i + 1)) + 1 := by omega
          rw [hidx, List.getElem?_cons_succ]
          exact hf
      · rcases ihpi with h | ⟨hle, f, hf, hfP⟩
        · rw [h, hvp]
          by_cases hP : head.present_support = true
          · right
            rw [if_pos hP]
            exact ⟨le_refl i, head, by simp, hP⟩
          · left
            rw [if_neg hP]
        · right
          refine ⟨by omega, f, ?_, hfP⟩
          have hidx : (QueueFamilyIndices.init_loop NULL_VAL (i + 1) tail
              (self.visit i head)).m_present_family - i
              = ((QueueFamilyIndices.init_loop NULL_VAL (i + 1) tail
                (self.visit i head)).m_present_family - (i + 1)) + 1 := by omega
          rw [hidx, List.getElem?_cons_succ]
          exact hf

/-- C21: starting from indices that are both `NULL_VAL`, for every list of
queue families none of whose indices is `NULL_VAL`, after `init` the indices
are complete exactly when some family has the graphics flag and some family
supports presentation; and when they are complete, the stored graphics index
designates a family with the graphics flag and the stored present index
designates a family that supports presentation. -/
theorem queue_family_indices_init_spec (NULL_VAL : Nat) (queue_families : List QueueFamily)
    (hnull : ∀ j, j < queue_families.length → j ≠ NULL_VAL) :
    (((QueueFamilyIndices.mk NULL_VAL NULL_VAL).init NULL_VAL queue_families).is_complete
        NULL_VAL = true ↔
      (∃ f ∈ queue_families, f.queueFlags &&& VK_QUEUE_GRAPHICS_BIT ≠ 0) ∧
      (∃ f ∈ queue_families, f.present_support = true)) ∧
    (((QueueFamilyIndices.mk NULL_VAL NULL_VAL).init NULL_VAL queue_families).is_complete
        NULL_VAL = true →
      (∃ f, queue_families[((QueueFamilyIndices.mk NULL_VAL NULL_VAL).init NULL_VAL
          queue_families).graphics_family]? = some f ∧
        f.queueFlags &&& VK_QUEUE_GRAPHICS_BIT ≠ 0) ∧
      (∃ f, queue_families[((QueueFamilyIndices.mk NULL_VAL NULL_VAL).init NULL_VAL
          queue_families).present_family]? = some f ∧
        f.present_support = true)) := by
  obtain ⟨hg, hp, hgi, hpi⟩ := init_loop_spec NULL_VAL queue_families 0
    (QueueFamilyIndices.mk NULL_VAL NULL_VAL)
    (fun j _ hj => hnull j (by simpa using hj))
  simp only [ne_eq, not_true_eq_false, false_or, Nat.sub_zero, Nat.zero_le, true_and] at hg hp hgi hpi
  unfold QueueFamilyIndices.init QueueFamilyIndices.graphics_family
    QueueFamilyIndices.present_family
  constructor
  · rw [is_complete_iff, ← hg, ← hp]
  · intro hc
    obtain ⟨hcg, hcp⟩ := (is_complete_iff NULL_VAL _).1 hc
    constructor
    · rcases hgi with h | h
      · exact absurd h hcg
      · exact h
    · rcases hpi with h | h
      · exact absurd h hcp
      · exact h

theorem queue_family_indices_init_spec_witness :
    ((QueueFamilyIndices.mk 4294967295 4294967295).init 4294967295
      [⟨0, true⟩, ⟨VK_QUEUE_GRAPHICS_BIT, false⟩]).is_complete 4294967295 = true ∧
    ((QueueFamilyIndices.mk 4294967295 4294967295).init 4294967295
      [⟨0, true⟩, ⟨VK_QUEUE_GRAPHICS_BIT, false⟩]).graphics_family = 1 ∧
    ((QueueFamilyIndices.mk 4294967295 4294967295).init 4294967295
      [⟨0, true⟩, ⟨VK_QUEUE_GRAPHICS_BIT, false⟩]).present_family = 0 :=
  ⟨(queue_family_indices_init_spec 4294967295 [⟨0, true⟩, ⟨VK_QUEUE_GRAPHICS_BIT, false⟩]
      (by intro j hj; simp at hj; omega)).1.2
      ⟨⟨⟨VK_QUEUE_GRAPHICS_BIT, false⟩, by simp, by decide⟩, ⟨⟨0, true⟩, by simp, rfl⟩⟩,
    by decide, by decide⟩

end Dal
